import Mathlib

/-!
Shallow embedding of the 3D rendering engine and OBJ loader of the
desktop-companion repository (render3d.c / render3d.h, obj_loader.c,
ssd1306.c), together with theorems settling the frozen claims about it.

Modelling conventions:
* C `float` arithmetic is modelled by exact rational arithmetic (`ℚ`).
* `sqrtf` is modelled by `ratSqrt`, a rational square-root approximation
  that, like `sqrtf`, is nonnegative and exact on perfect squares.
* `cosf`, `sinf` are taken as explicit function parameters `(cosf sinf : ℚ → ℚ)`
  wherever the code calls them, so every theorem quantifies over all
  possible trigonometric implementations.
* C casts `(int)x` truncate toward zero; `ceilf`/`floorf` are `⌈⌉`/`⌊⌋`.
* The SSD1306 display (ssd1306.c) is modelled as a function
  `(ℤ × ℤ) → Bool`; `ssd1306_set_pixel` silently ignores out-of-bounds
  coordinates, exactly as in the driver source.
-/

set_option maxRecDepth 16000

-- ===========================================================================
-- A kernel-computable square root (model of sqrtf)
-- ===========================================================================

/-- Fuel-driven binary integer square root (the fuel argument only bounds
the recursion depth; `n` itself is always enough fuel). -/
def sqrtAux : ℕ → ℕ → ℕ
  | 0, n => n
  | f + 1, n =>
    if n ≤ 1 then n
    else
      let s := 2 * sqrtAux f (n / 4)
      if (s + 1) * (s + 1) ≤ n then s + 1 else s

def natSqrt (n : ℕ) : ℕ := sqrtAux n n

/-- Rational square-root approximation, the model of `sqrtf`: nonnegative
everywhere and exact on perfect squares (mirrors `Rat.sqrt`). -/
def ratSqrt (q : ℚ) : ℚ := mkRat (natSqrt q.num.toNat : ℤ) (natSqrt q.den)

theorem ratSqrt_nonneg (q : ℚ) : 0 ≤ ratSqrt q := by
  unfold ratSqrt
  exact Rat.mkRat_nonneg (Int.ofNat_nonneg _) _

-- ===========================================================================
-- Vectors (vec3_t) and basic operations, from render3d.c
-- ===========================================================================

structure Vec3 where
  x : ℚ
  y : ℚ
  z : ℚ
deriving DecidableEq, Repr

def vec3_create (x y z : ℚ) : Vec3 := ⟨x, y, z⟩

def vec3_zero : Vec3 := ⟨0, 0, 0⟩

def vec3_add (a b : Vec3) : Vec3 := ⟨a.x + b.x, a.y + b.y, a.z + b.z⟩

def vec3_sub (a b : Vec3) : Vec3 := ⟨a.x - b.x, a.y - b.y, a.z - b.z⟩

def vec3_mul (v : Vec3) (s : ℚ) : Vec3 := ⟨v.x * s, v.y * s, v.z * s⟩

def vec3_cross (a b : Vec3) : Vec3 :=
  ⟨a.y * b.z - a.z * b.y, a.z * b.x - a.x * b.z, a.x * b.y - a.y * b.x⟩

def vec3_dot (a b : Vec3) : ℚ := a.x * b.x + a.y * b.y + a.z * b.z

/-- vec3_length: `sqrtf(x*x + y*y + z*z)`, with `sqrtf` modelled by the
rational square-root approximation (nonnegative, exact on squares). -/
def vec3_length (v : Vec3) : ℚ := ratSqrt (v.x * v.x + v.y * v.y + v.z * v.z)

/-- vec3_normalize: returns the zero vector when the length is below the
1e-4 floor, otherwise scales by the reciprocal length. -/
def vec3_normalize (v : Vec3) : Vec3 :=
  let len := vec3_length v
  if len < 1 / 10000 then ⟨0, 0, 0⟩ else vec3_mul v (1 / len)

-- ===========================================================================
-- Matrices (mat4_t), from render3d.c
-- ===========================================================================

def Mat4 : Type := Fin 4 → Fin 4 → ℚ

def mat4_identity : Mat4 := fun i j => if i = j then 1 else 0

def mat4_multiply (a b : Mat4) : Mat4 := fun i j => ∑ k : Fin 4, a i k * b k j

def mat4_translate (x y z : ℚ) : Mat4 := fun i j =>
  if i = 0 ∧ j = 3 then x else
  if i = 1 ∧ j = 3 then y else
  if i = 2 ∧ j = 3 then z else
  mat4_identity i j

/-- The float constant M_PI; its value only ever feeds the abstract
trigonometric function parameters. -/
def piQ : ℚ := 3.14159265358979323846

def deg_to_rad (d : ℚ) : ℚ := d * piQ / 180

/-- mat4_rotate_x, with `cosf`/`sinf` as parameters. -/
def mat4_rotate_x (cosf sinf : ℚ → ℚ) (angle_deg : ℚ) : Mat4 :=
  let c := cosf (deg_to_rad angle_deg)
  let s := sinf (deg_to_rad angle_deg)
  fun i j =>
    if i = 1 ∧ j = 1 then c else
    if i = 1 ∧ j = 2 then -s else
    if i = 2 ∧ j = 1 then s else
    if i = 2 ∧ j = 2 then c else
    mat4_identity i j

def mat4_rotate_y (cosf sinf : ℚ → ℚ) (angle_deg : ℚ) : Mat4 :=
  let c := cosf (deg_to_rad angle_deg)
  let s := sinf (deg_to_rad angle_deg)
  fun i j =>
    if i = 0 ∧ j = 0 then c else
    if i = 0 ∧ j = 2 then s else
    if i = 2 ∧ j = 0 then -s else
    if i = 2 ∧ j = 2 then c else
    mat4_identity i j

def mat4_rotate_z (cosf sinf : ℚ → ℚ) (angle_deg : ℚ) : Mat4 :=
  let c := cosf (deg_to_rad angle_deg)
  let s := sinf (deg_to_rad angle_deg)
  fun i j =>
    if i = 0 ∧ j = 0 then c else
    if i = 0 ∧ j = 1 then -s else
    if i = 1 ∧ j = 0 then s else
    if i = 1 ∧ j = 1 then c else
    mat4_identity i j

def mat4_scale (x y z : ℚ) : Mat4 := fun i j =>
  if i = 0 ∧ j = 0 then x else
  if i = 1 ∧ j = 1 then y else
  if i = 2 ∧ j = 2 then z else
  mat4_identity i j

/-- mat4_transform_point: homogeneous transform with the divisor clamped
away from zero (`fabsf(w) < 0.0001f` is replaced by `0.0001f`). -/
def mat4_transform_point (m : Mat4) (p : Vec3) : Vec3 :=
  let w0 := m 3 0 * p.x + m 3 1 * p.y + m 3 2 * p.z + m 3 3
  let w := if |w0| < 1 / 10000 then 1 / 10000 else w0
  ⟨(m 0 0 * p.x + m 0 1 * p.y + m 0 2 * p.z + m 0 3) / w,
   (m 1 0 * p.x + m 1 1 * p.y + m 1 2 * p.z + m 1 3) / w,
   (m 2 0 * p.x + m 2 1 * p.y + m 2 2 * p.z + m 2 3) / w⟩

-- ===========================================================================
-- Colors and faces
-- ===========================================================================

structure Color where
  r : ℕ
  g : ℕ
  b : ℕ
deriving DecidableEq, Repr

/-- face_t: three vertex indices plus a flat color (the unused normal
indices `n[3]` are omitted). -/
structure Face where
  v0 : ℕ
  v1 : ℕ
  v2 : ℕ
  color : Color
deriving DecidableEq, Repr

-- ===========================================================================
-- Dithering, from render3d.c
-- ===========================================================================

/-- The Bayer 4x4 ordered dithering matrix. -/
def DITHER_BAYER4 : List (List ℕ) :=
  [[0, 8, 2, 10], [12, 4, 14, 6], [3, 11, 1, 9], [15, 7, 13, 5]]

/-- `DITHER_BAYER4[y & 3][x & 3]`.  On two's-complement ints the mask
`& 3` equals the mathematical `mod 4` (`Int.emod` with positive modulus),
for negative coordinates as well. -/
def bayer_threshold (y x : ℤ) : ℕ :=
  ((DITHER_BAYER4.getD (y.emod 4).toNat []).getD (x.emod 4).toNat 0)

/-- dither_pixel from render3d.c. -/
def dither_pixel (x y : ℤ) (brightness : ℚ) : Bool :=
  if brightness ≤ 0 then false
  else if 1 ≤ brightness then true
  else decide ((bayer_threshold y x : ℚ) < brightness * 16)

-- ===========================================================================
-- Back-face culling and lighting stages of render3d_draw_mesh
-- ===========================================================================

/-- calculate_face_normal: normalized cross product of the two edges. -/
def calculate_face_normal (v0 v1 v2 : Vec3) : Vec3 :=
  vec3_normalize (vec3_cross (vec3_sub v1 v0) (vec3_sub v2 v0))

/-- The back-face culling test of render3d_draw_mesh (lines 511–515):
the face is skipped when the dot product of the face normal with the
normalized vector from the first world-space vertex toward the camera
position is strictly negative. -/
def backface_cull (camera_position v0 v1 v2 : Vec3) : Bool :=
  let normal := calculate_face_normal v0 v1 v2
  let view_dir := vec3_normalize (vec3_sub camera_position v0)
  decide (vec3_dot normal view_dir < 0)

/-- light_t. -/
structure Light where
  direction : Vec3
  intensity : ℚ
  ambient : ℚ
deriving DecidableEq, Repr

/-- The flat-shading stage of render3d_draw_mesh (lines 517–521):
diffuse is the negated dot product floored at 0, and the brightness
`ambient + diffuse * intensity` is clamped from above at 1 only. -/
def face_brightness (normal : Vec3) (light : Light) : ℚ :=
  let diffuse0 := -vec3_dot normal light.direction
  let diffuse := if diffuse0 < 0 then 0 else diffuse0
  let brightness := light.ambient + diffuse * light.intensity
  if brightness > 1 then 1 else brightness

-- quick sanity examples (not claim theorems)
example : vec3_normalize ⟨0, 0, 5⟩ = ⟨0, 0, 1⟩ := by with_unfolding_all rfl
example : backface_cull ⟨0, 0, 5⟩ ⟨0, 0, 0⟩ ⟨1, 0, 0⟩ ⟨0, 1, 0⟩ = false := by
  with_unfolding_all rfl
example : backface_cull ⟨0, 0, 5⟩ ⟨0, 0, 0⟩ ⟨0, 1, 0⟩ ⟨1, 0, 0⟩ = true := by
  with_unfolding_all rfl
example : dither_pixel 0 0 (1/2) = true := by with_unfolding_all rfl
example : dither_pixel 3 2 (1/16) = false := by with_unfolding_all rfl

-- ===========================================================================
-- Helper lemmas about normalization and culling
-- ===========================================================================

lemma vec3_length_neg (v : Vec3) :
    vec3_length ⟨-v.x, -v.y, -v.z⟩ = vec3_length v := by
  unfold vec3_length
  ring_nf

lemma vec3_normalize_neg (v : Vec3) :
    vec3_normalize ⟨-v.x, -v.y, -v.z⟩ =
      ⟨-(vec3_normalize v).x, -(vec3_normalize v).y, -(vec3_normalize v).z⟩ := by
  unfold vec3_normalize
  dsimp only
  rw [vec3_length_neg]
  split_ifs with h
  · simp
  · simp only [vec3_mul, Vec3.mk.injEq]
    exact ⟨by ring, by ring, by ring⟩

lemma vec3_cross_swap (a b : Vec3) :
    vec3_cross b a =
      ⟨-(vec3_cross a b).x, -(vec3_cross a b).y, -(vec3_cross a b).z⟩ := by
  simp only [vec3_cross, Vec3.mk.injEq]
  exact ⟨by ring, by ring, by ring⟩

lemma vec3_dot_neg_left (n d : Vec3) :
    vec3_dot ⟨-n.x, -n.y, -n.z⟩ d = -vec3_dot n d := by
  simp only [vec3_dot]; ring

lemma vec3_dot_self_nonneg (v : Vec3) : 0 ≤ vec3_dot v v := by
  simp only [vec3_dot]
  nlinarith [sq_nonneg v.x, sq_nonneg v.y, sq_nonneg v.z]

lemma calculate_face_normal_swap (v0 v1 v2 : Vec3) :
    calculate_face_normal v0 v2 v1 =
      ⟨-(calculate_face_normal v0 v1 v2).x,
       -(calculate_face_normal v0 v1 v2).y,
       -(calculate_face_normal v0 v1 v2).z⟩ := by
  unfold calculate_face_normal
  rw [vec3_cross_swap]
  exact vec3_normalize_neg _

-- ===========================================================================
-- Claim C1
-- ===========================================================================

/-- C1 (counterexample): the claim "a face is discarded by back-face
culling exactly when the dot product of its face normal with the view
direction is ≤ 0" is false on the code.  First face: an edge-on triangle
whose normal is exactly perpendicular to the view direction (dot = 0,
whichever of the two directed view vectors is meant) is NOT culled by
`backface_cull` (the code only culls at dot < 0).  Second face: a
triangle facing the camera is not culled either, although its normal
dotted with the normalized vector from the camera to the first vertex is
−1 ≤ 0. -/
theorem backface_cull_boundary_cex :
    (backface_cull ⟨0, 0, 5⟩ ⟨0, 0, 0⟩ ⟨1, 0, 0⟩ ⟨0, 0, 1⟩ = false
      ∧ vec3_dot (calculate_face_normal ⟨0, 0, 0⟩ ⟨1, 0, 0⟩ ⟨0, 0, 1⟩)
          (vec3_normalize (vec3_sub ⟨0, 0, 5⟩ ⟨0, 0, 0⟩)) = 0
      ∧ vec3_dot (calculate_face_normal ⟨0, 0, 0⟩ ⟨1, 0, 0⟩ ⟨0, 0, 1⟩)
          (vec3_normalize (vec3_sub ⟨0, 0, 0⟩ ⟨0, 0, 5⟩)) = 0)
    ∧ (backface_cull ⟨0, 0, 5⟩ ⟨0, 0, 0⟩ ⟨1, 0, 0⟩ ⟨0, 1, 0⟩ = false
      ∧ vec3_dot (calculate_face_normal ⟨0, 0, 0⟩ ⟨1, 0, 0⟩ ⟨0, 1, 0⟩)
          (vec3_normalize (vec3_sub ⟨0, 0, 0⟩ ⟨0, 0, 5⟩)) ≤ 0) := by
  refine ⟨⟨?_, ?_, ?_⟩, ?_, ?_⟩ <;> with_unfolding_all decide

/-- C1 (amended): a face processed by render3d_draw_mesh is discarded by
back-face culling exactly when the dot product of its face normal with
the normalized vector from the face's first world-space vertex toward
the camera position is STRICTLY NEGATIVE (the code tests `< 0`, so a
dot product of exactly 0 is drawn); in particular a triangle whose
normal equals that view direction (pointing directly at the camera) is
drawn, and reversing the vertex winding order of a triangle with
strictly positive dot product makes it culled. -/
theorem backface_cull_characterization (c v0 v1 v2 : Vec3) :
    (backface_cull c v0 v1 v2 = true ↔
      vec3_dot (calculate_face_normal v0 v1 v2)
        (vec3_normalize (vec3_sub c v0)) < 0)
    ∧ (calculate_face_normal v0 v1 v2 = vec3_normalize (vec3_sub c v0) →
        backface_cull c v0 v1 v2 = false)
    ∧ (0 < vec3_dot (calculate_face_normal v0 v1 v2)
          (vec3_normalize (vec3_sub c v0)) →
        backface_cull c v0 v2 v1 = true) := by
  refine ⟨?_, ?_, ?_⟩
  · simp [backface_cull]
  · intro h
    simp only [backface_cull, decide_eq_false_iff_not, not_lt]
    rw [h]
    exact vec3_dot_self_nonneg _
  · intro h
    simp only [backface_cull, decide_eq_true_eq]
    rw [calculate_face_normal_swap, vec3_dot_neg_left]
    linarith

/-- C1 (witness): the amended theorem applied to a concrete camera and
triangle, both for the facing-camera case and the reversed-winding case. -/
theorem backface_cull_characterization_witness :
    (calculate_face_normal ⟨0, 0, 0⟩ ⟨1, 0, 0⟩ ⟨0, 1, 0⟩ =
        vec3_normalize (vec3_sub ⟨0, 0, 5⟩ ⟨0, 0, 0⟩)
      ∧ backface_cull ⟨0, 0, 5⟩ ⟨0, 0, 0⟩ ⟨1, 0, 0⟩ ⟨0, 1, 0⟩ = false)
    ∧ (0 < vec3_dot (calculate_face_normal ⟨0, 0, 0⟩ ⟨1, 0, 0⟩ ⟨0, 1, 0⟩)
          (vec3_normalize (vec3_sub ⟨0, 0, 5⟩ ⟨0, 0, 0⟩))
      ∧ backface_cull ⟨0, 0, 5⟩ ⟨0, 0, 0⟩ ⟨0, 1, 0⟩ ⟨1, 0, 0⟩ = true) := by
  have h1 : calculate_face_normal ⟨0, 0, 0⟩ ⟨1, 0, 0⟩ ⟨0, 1, 0⟩ =
      vec3_normalize (vec3_sub ⟨0, 0, 5⟩ ⟨0, 0, 0⟩) := by with_unfolding_all rfl
  have h2 : 0 < vec3_dot (calculate_face_normal ⟨0, 0, 0⟩ ⟨1, 0, 0⟩ ⟨0, 1, 0⟩)
      (vec3_normalize (vec3_sub ⟨0, 0, 5⟩ ⟨0, 0, 0⟩)) := by
    with_unfolding_all decide
  exact ⟨⟨h1, (backface_cull_characterization ⟨0, 0, 5⟩ ⟨0, 0, 0⟩ ⟨1, 0, 0⟩
      ⟨0, 1, 0⟩).2.1 h1⟩,
    h2, (backface_cull_characterization ⟨0, 0, 5⟩ ⟨0, 0, 0⟩ ⟨1, 0, 0⟩
      ⟨0, 1, 0⟩).2.2 h2⟩

-- ===========================================================================
-- Claim C3
-- ===========================================================================

/-- C3 (counterexample): with ambient = −1 and intensity = 0 the
brightness computed by the lighting stage of render3d_draw_mesh is −1,
which is negative: the code only clamps the brightness from above at 1,
never from below at 0. -/
theorem brightness_negative_cex :
    face_brightness ⟨0, 0, 1⟩ ⟨⟨0, 0, -1⟩, 0, -1⟩ = -1
    ∧ face_brightness ⟨0, 0, 1⟩ ⟨⟨0, 0, -1⟩, 0, -1⟩ < 0 := by
  constructor <;> with_unfolding_all decide

/-- C3 (amended): for every face the flat-shading brightness equals
`ambient + diffuse × intensity` where diffuse is the negated dot product
of the face normal with the light direction floored at 0, clamped from
ABOVE at 1 only (`min · 1`): it never exceeds 1, but it can be negative
when ambient or intensity is negative; it is nonnegative whenever both
ambient and intensity are nonnegative. -/
theorem face_brightness_clamp (n : Vec3) (l : Light) :
    face_brightness n l =
      min (l.ambient + max 0 (-vec3_dot n l.direction) * l.intensity) 1
    ∧ face_brightness n l ≤ 1
    ∧ (0 ≤ l.ambient → 0 ≤ l.intensity → 0 ≤ face_brightness n l) := by
  have hd : (if -vec3_dot n l.direction < 0 then (0:ℚ)
      else -vec3_dot n l.direction) = max 0 (-vec3_dot n l.direction) := by
    rcases le_or_lt 0 (-vec3_dot n l.direction) with h | h
    · rw [if_neg (not_lt.2 h), max_eq_right h]
    · rw [if_pos h, max_eq_left h.le]
  have hb : ∀ b : ℚ, (if b > 1 then (1:ℚ) else b) = min b 1 := by
    intro b
    rcases le_or_lt b 1 with h | h
    · rw [if_neg (not_lt.2 h), min_eq_left h]
    · rw [if_pos h, min_eq_right h.le]
  have hmin : face_brightness n l =
      min (l.ambient + max 0 (-vec3_dot n l.direction) * l.intensity) 1 := by
    unfold face_brightness
    dsimp only
    rw [hd, hb]
  refine ⟨hmin, ?_, ?_⟩
  · rw [hmin]; exact min_le_right _ _
  · intro ha hi
    rw [hmin]
    have : (0:ℚ) ≤ max 0 (-vec3_dot n l.direction) * l.intensity :=
      mul_nonneg (le_max_left _ _) hi
    exact le_min (by linarith) one_pos.le

/-- C3 (witness): the amended theorem evaluated at a concrete normal and
a light with nonnegative ambient and intensity. -/
theorem face_brightness_clamp_witness :
    (0:ℚ) ≤ (1/5 : ℚ) ∧ (0:ℚ) ≤ (1:ℚ)
    ∧ 0 ≤ face_brightness ⟨0, 0, 1⟩ ⟨⟨0, 0, -1⟩, 1, 1/5⟩
    ∧ face_brightness ⟨0, 0, 1⟩ ⟨⟨0, 0, -1⟩, 1, 1/5⟩ ≤ 1 := by
  refine ⟨by norm_num, by norm_num, ?_, ?_⟩
  · exact (face_brightness_clamp ⟨0, 0, 1⟩ ⟨⟨0, 0, -1⟩, 1, 1/5⟩).2.2
      (by norm_num) (by norm_num)
  · exact (face_brightness_clamp ⟨0, 0, 1⟩ ⟨⟨0, 0, -1⟩, 1, 1/5⟩).2.1

-- ===========================================================================
-- Claim C4
-- ===========================================================================

/-- C4: dither_pixel is a pure deterministic function of its arguments;
it returns false whenever brightness ≤ 0, true whenever brightness ≥ 1,
and otherwise returns true if and only if `brightness × 16` is strictly
greater than the Bayer threshold at `(y mod 4, x mod 4)` (the code's
`y & 3` equals the mathematical `mod 4` on two's-complement ints). -/
theorem dither_pixel_spec (x y : ℤ) (b : ℚ) :
    dither_pixel x y b = dither_pixel x y b
    ∧ (b ≤ 0 → dither_pixel x y b = false)
    ∧ (1 ≤ b → dither_pixel x y b = true)
    ∧ (0 < b → b < 1 →
        (dither_pixel x y b = true ↔ (bayer_threshold y x : ℚ) < b * 16)) := by
  refine ⟨rfl, ?_, ?_, ?_⟩
  · intro h; simp [dither_pixel, h]
  · intro h
    unfold dither_pixel
    rw [if_neg (by linarith), if_pos h]
  · intro h0 h1
    unfold dither_pixel
    rw [if_neg (by linarith), if_neg (by linarith)]
    simp

/-- C4 (witness): the spec theorem evaluated at pixel (0,0) with
brightness 1/2, whose Bayer threshold is 0, so the pixel is on. -/
theorem dither_pixel_spec_witness :
    (0:ℚ) < 1/2 ∧ (1/2:ℚ) < 1
    ∧ (dither_pixel 0 0 (1/2) = true ↔ (bayer_threshold 0 0 : ℚ) < (1/2) * 16) := by
  exact ⟨by norm_num, by norm_num,
    (dither_pixel_spec 0 0 (1/2)).2.2.2 (by norm_num) (by norm_num)⟩

-- ===========================================================================
-- C truncation casts
-- ===========================================================================

/-- The C cast `(int)x` on a float: truncation toward zero. -/
def truncQ (q : ℚ) : ℤ := if 0 ≤ q then ⌊q⌋ else -⌊-q⌋

-- ===========================================================================
-- The SSD1306 display (ssd1306.c) and the render context state
-- ===========================================================================

def SSD1306_WIDTH : ℤ := 128

def SSD1306_HEIGHT : ℤ := 64

/-- ssd1306_set_pixel: silently ignores out-of-bounds coordinates,
otherwise sets the addressed pixel of the 1-bit frame buffer. -/
def ssd1306_set_pixel (fb : ℤ × ℤ → Bool) (x y : ℤ) (val : Bool) : ℤ × ℤ → Bool :=
  if x < 0 ∨ SSD1306_WIDTH ≤ x ∨ y < 0 ∨ SSD1306_HEIGHT ≤ y then fb
  else fun p => if p = (x, y) then val else fb p

/-- camera_t. -/
structure Camera where
  position : Vec3
  target : Vec3
  up : Vec3
  fov : ℚ
  near_plane : ℚ
  far_plane : ℚ

/-- render_ctx_t for the monochrome build (DISPLAY_COLOR_MODE = 0,
SHADING_MODE = 1, the configuration fixed in render3d.h), with the
SSD1306 frame buffer the engine draws into folded into the same state
record.  The zbuffer is indexed by pixel coordinates. -/
structure RState where
  camera : Camera
  light : Light
  view_matrix : Mat4
  proj_matrix : Mat4
  width : ℤ
  height : ℤ
  zbuffer : ℤ × ℤ → ℚ
  display : ℤ × ℤ → Bool

/-- render3d_clear: every depth cell becomes the 1000.0 far sentinel and
the monochrome path delegates to ssd1306_clear (all pixels off). -/
def render3d_clear (s : RState) : RState :=
  { s with zbuffer := fun _ => 1000, display := fun _ => false }

-- ===========================================================================
-- Scanline rasterization (draw_scanline / draw_triangle_flat)
-- ===========================================================================

/-- One pixel-write attempt produced by the scanline loop: position,
interpolated depth, and the dithered pixel value. -/
structure Write where
  x : ℤ
  y : ℤ
  z : ℚ
  v : Bool
deriving DecidableEq, Repr

/-- The inner loop of draw_scanline: `for (x = ix1; x <= ix2; x++)`
with `z += dz` per iteration; `cnt` is the number of iterations
`ix2 - ix1 + 1`.  The pixel value is `dither_pixel(x, y, brightness)`
(monochrome dithered build). -/
def spanWrites (y : ℤ) (brightness : ℚ) : ℤ → ℕ → ℚ → ℚ → List Write
  | _, 0, _, _ => []
  | x, cnt + 1, z, dz =>
    ⟨x, y, z, dither_pixel x y brightness⟩ :: spanWrites y brightness (x + 1) cnt (z + dz) dz

/-- draw_scanline, as the list of pixel-write attempts it makes (the
z-buffer test itself is applied when the writes are folded into the
state, see `applyWrite`). -/
def draw_scanlineWrites (width height : ℤ) (y : ℤ)
    (x1 x2 z1 z2 brightness : ℚ) : List Write :=
  if y < 0 ∨ height ≤ y then []
  else
    let q := if x1 > x2 then (x2, x1, z2, z1) else (x1, x2, z1, z2)
    let x1 := q.1
    let x2 := q.2.1
    let z1 := q.2.2.1
    let z2 := q.2.2.2
    let ix1 := truncQ x1
    let ix2 := truncQ x2
    if ix2 < 0 ∨ width ≤ ix1 then []
    else
      let dx := x2 - x1
      let dz := if dx > 1/1000 then (z2 - z1) / dx else 0
      let z := if ix1 < 0 then z1 + dz * (0 - x1) else z1
      let ix1 := if ix1 < 0 then 0 else ix1
      let ix2 := if width ≤ ix2 then width - 1 else ix2
      spanWrites y brightness ix1 (ix2 - ix1 + 1).toNat z dz

/-- The three conditional swaps at the top of draw_triangle_flat that
sort the projected vertices by y (`p0.y ≤ p1.y ≤ p2.y` afterwards). -/
def sortTriangleByY (p0 p1 p2 : Vec3) : Vec3 × Vec3 × Vec3 :=
  let q01 := if p0.y > p1.y then (p1, p0) else (p0, p1)
  let p0 := q01.1
  let p1 := q01.2
  let q02 := if p0.y > p2.y then (p2, p0) else (p0, p2)
  let p0 := q02.1
  let p2 := q02.2
  let q12 := if p1.y > p2.y then (p2, p1) else (p1, p2)
  let p1 := q12.1
  let p2 := q12.2
  (p0, p1, p2)

/-- draw_triangle_flat, as the list of pixel-write attempts: sorts the
three projected vertices by y, then rasterizes every scanline between
`ceil(p0.y)` and `floor(p2.y)` clamped to the screen, interpolating x
and depth along the long edge and the active short edge. -/
def drawTriangleWrites (width height : ℤ) (q0 q1 q2 : Vec3)
    (brightness : ℚ) : List Write :=
  let sorted := sortTriangleByY q0 q1 q2
  let p0 := sorted.1
  let p1 := sorted.2.1
  let p2 := sorted.2.2
  let iy0 := ⌈p0.y⌉
  let iy2 := ⌊p2.y⌋
  if iy2 < 0 ∨ height ≤ iy0 then []
  else if iy0 > iy2 then []
  else
    let iy0 := if iy0 < 0 then 0 else iy0
    let iy2 := if height ≤ iy2 then height - 1 else iy2
    let dy_total := p2.y - p0.y
    let dy_upper := p1.y - p0.y
    let dy_lower := p2.y - p1.y
    let inv_dy_total := if dy_total > 1/1000 then 1 / dy_total else 0
    let inv_dy_upper := if dy_upper > 1/1000 then 1 / dy_upper else 0
    let inv_dy_lower := if dy_lower > 1/1000 then 1 / dy_lower else 0
    (List.range (iy2 - iy0 + 1).toNat).flatMap fun k =>
      let y := iy0 + (k : ℤ)
      let fy := (y : ℚ) + 1/2
      let t_long := (fy - p0.y) * inv_dy_total
      let x_long := p0.x + (p2.x - p0.x) * t_long
      let z_long := p0.z + (p2.z - p0.z) * t_long
      let qs := if fy < p1.y then
          (p0.x + (p1.x - p0.x) * ((fy - p0.y) * inv_dy_upper),
           p0.z + (p1.z - p0.z) * ((fy - p0.y) * inv_dy_upper))
        else
          (p1.x + (p2.x - p1.x) * ((fy - p1.y) * inv_dy_lower),
           p1.z + (p2.z - p1.z) * ((fy - p1.y) * inv_dy_lower))
      draw_scanlineWrites width height y x_long qs.1 z_long qs.2 brightness

/-- The per-pixel body of the scanline loop: write the pixel and update
the depth buffer only when the interpolated depth is strictly below the
stored depth. -/
def applyWrite (s : RState) (w : Write) : RState :=
  if w.z < s.zbuffer (w.x, w.y) then
    { s with
      zbuffer := fun p => if p = (w.x, w.y) then w.z else s.zbuffer p,
      display := ssd1306_set_pixel s.display w.x w.y w.v }
  else s

def applyWrites (s : RState) (ws : List Write) : RState := ws.foldl applyWrite s

/-- draw_triangle_flat as a state transformer. -/
def draw_triangle_flat (s : RState) (p0 p1 p2 : Vec3) (brightness : ℚ) : RState :=
  applyWrites s (drawTriangleWrites s.width s.height p0 p1 p2 brightness)

-- ===========================================================================
-- Projection and the per-face fill pipeline of render3d_draw_mesh
-- ===========================================================================

/-- project_point: clip space to screen space, carrying clip z as depth. -/
def project_point (ctx : RState) (p : Vec3) (mvp : Mat4) : Vec3 :=
  let clip := mat4_transform_point mvp p
  ⟨(clip.x + 1) * (1/2) * (ctx.width : ℚ),
   (1 - clip.y) * (1/2) * (ctx.height : ℚ),
   clip.z⟩

/-- mesh_t. -/
structure Mesh where
  vertices : List Vec3
  normals : List Vec3
  faces : List Face
  vertex_count : ℕ
  normal_count : ℕ
  face_count : ℕ
  position : Vec3
  rotation : Vec3
  scale : Vec3

/-- The model matrix `Trans * RotY * RotX * RotZ * Scale` built
identically at the top of render3d_draw_mesh and
render3d_draw_mesh_wireframe. -/
def mesh_model_matrix (cosf sinf : ℚ → ℚ) (mesh : Mesh) : Mat4 :=
  let scale_m := mat4_scale mesh.scale.x mesh.scale.y mesh.scale.z
  let rot_z := mat4_rotate_z cosf sinf mesh.rotation.z
  let rot_x := mat4_rotate_x cosf sinf mesh.rotation.x
  let rot_y := mat4_rotate_y cosf sinf mesh.rotation.y
  let trans_m := mat4_translate mesh.position.x mesh.position.y mesh.position.z
  mat4_multiply trans_m
    (mat4_multiply rot_y (mat4_multiply rot_x (mat4_multiply rot_z scale_m)))

/-- The per-face body of the render3d_draw_mesh loop, as the list of
pixel-write attempts: world transform, back-face culling, lighting,
projection, near-plane rejection (`p.z < 0` on any vertex), then the
triangle rasterizer.  (`backface_cull` recomputes the same face normal
that the lighting stage uses; out-of-range vertex indices, undefined
behaviour in C, read a zero vertex.) -/
def fillFaceWrites (ctx : RState) (model mvp : Mat4) (vertices : List Vec3)
    (face : Face) : List Write :=
  let v0 := mat4_transform_point model (vertices.getD face.v0 vec3_zero)
  let v1 := mat4_transform_point model (vertices.getD face.v1 vec3_zero)
  let v2 := mat4_transform_point model (vertices.getD face.v2 vec3_zero)
  if backface_cull ctx.camera.position v0 v1 v2 then []
  else
    let normal := calculate_face_normal v0 v1 v2
    let brightness := face_brightness normal ctx.light
    let p0 := project_point ctx (vertices.getD face.v0 vec3_zero) mvp
    let p1 := project_point ctx (vertices.getD face.v1 vec3_zero) mvp
    let p2 := project_point ctx (vertices.getD face.v2 vec3_zero) mvp
    if p0.z < 0 ∨ p1.z < 0 ∨ p2.z < 0 then []
    else drawTriangleWrites ctx.width ctx.height p0 p1 p2 brightness

/-- render3d_draw_mesh: returns immediately on a NULL mesh or a mesh
with no faces, otherwise builds the model and MVP matrices once and
rasterizes every face in array order against the evolving z-buffer. -/
def render3d_draw_mesh (cosf sinf : ℚ → ℚ) (ctx : RState)
    (mesh : Option Mesh) : RState :=
  match mesh with
  | none => ctx
  | some m =>
    if m.face_count = 0 then ctx
    else
      let model := mesh_model_matrix cosf sinf m
      let mv := mat4_multiply ctx.view_matrix model
      let mvp := mat4_multiply ctx.proj_matrix mv
      (m.faces.take m.face_count).foldl
        (fun s face => applyWrites s (fillFaceWrites ctx model mvp m.vertices face))
        ctx

-- ===========================================================================
-- Bresenham line drawing (render3d_draw_line) and the wireframe path
-- ===========================================================================

/-- The body of the render3d_draw_line loop, with explicit fuel: each
iteration plots the current point (clipped to the SSD1306 bounds),
stops when the end point is reached, and otherwise steps x and/or y by
the precomputed signs according to the error term.  `none` means the
fuel ran out before the exit condition was reached. -/
def bresLoop (x1 y1 dx dy sx sy : ℤ) : ℕ → ℤ → ℤ → ℤ → Option (List (ℤ × ℤ))
  | 0, _, _, _ => none
  | fuel + 1, x0, y0, err =>
    let px := if 0 ≤ x0 ∧ x0 < SSD1306_WIDTH ∧ 0 ≤ y0 ∧ y0 < SSD1306_HEIGHT
      then [(x0, y0)] else []
    if x0 = x1 ∧ y0 = y1 then some px
    else
      let e2 := 2 * err
      let err1 := if e2 > -dy then err - dy else err
      let x0n := if e2 > -dy then x0 + sx else x0
      let err2 := if e2 < dx then err1 + dx else err1
      let y0n := if e2 < dx then y0 + sy else y0
      (bresLoop x1 y1 dx dy sx sy fuel x0n y0n err2).map (px ++ ·)

/-- render3d_draw_line, run with fuel `|x1−x0| + |y1−y0| + 1`; the
termination theorem proves this fuel always suffices. -/
def render3d_draw_line (x0 y0 x1 y1 : ℤ) : Option (List (ℤ × ℤ)) :=
  let dx := |x1 - x0|
  let dy := |y1 - y0|
  let sx : ℤ := if x0 < x1 then 1 else -1
  let sy : ℤ := if y0 < y1 then 1 else -1
  bresLoop x1 y1 dx dy sx sy (dx + dy + 1).toNat x0 y0 (dx - dy)

/-- The per-face body of the render3d_draw_mesh_wireframe loop: project
the three vertices, discard the triangle whole when any projected depth
is strictly negative (`p.z < 0`, the same rule as the fill path),
otherwise draw the three edges with Bresenham lines. -/
def wireFaceWrites (ctx : RState) (mvp : Mat4) (vertices : List Vec3)
    (face : Face) : List (ℤ × ℤ) :=
  let p0 := project_point ctx (vertices.getD face.v0 vec3_zero) mvp
  let p1 := project_point ctx (vertices.getD face.v1 vec3_zero) mvp
  let p2 := project_point ctx (vertices.getD face.v2 vec3_zero) mvp
  if p0.z < 0 ∨ p1.z < 0 ∨ p2.z < 0 then []
  else
    ((render3d_draw_line (truncQ p0.x) (truncQ p0.y) (truncQ p1.x) (truncQ p1.y)).getD [])
    ++ ((render3d_draw_line (truncQ p1.x) (truncQ p1.y) (truncQ p2.x) (truncQ p2.y)).getD [])
    ++ ((render3d_draw_line (truncQ p2.x) (truncQ p2.y) (truncQ p0.x) (truncQ p0.y)).getD [])

/-- Applying wireframe pixels: lines write directly through
ssd1306_set_pixel and bypass the depth buffer. -/
def applyPixels (s : RState) (ps : List (ℤ × ℤ)) : RState :=
  { s with display := ps.foldl (fun fb p => ssd1306_set_pixel fb p.1 p.2 true) s.display }

/-- render3d_draw_mesh_wireframe: same NULL/empty guard and model/MVP
setup as the fill path, then edge drawing per face. -/
def render3d_draw_mesh_wireframe (cosf sinf : ℚ → ℚ) (ctx : RState)
    (mesh : Option Mesh) : RState :=
  match mesh with
  | none => ctx
  | some m =>
    if m.face_count = 0 then ctx
    else
      let model := mesh_model_matrix cosf sinf m
      let mv := mat4_multiply ctx.view_matrix model
      let mvp := mat4_multiply ctx.proj_matrix mv
      (m.faces.take m.face_count).foldl
        (fun s face => applyPixels s (wireFaceWrites ctx mvp m.vertices face))
        ctx

-- ===========================================================================
-- Claim C2
-- ===========================================================================

/-- A concrete render context used by concrete-input theorems: camera at
(0,0,5), a light of intensity 0 and ambient 1, identity cached matrices,
and a 128×64 screen. -/
def ctxC2 : RState :=
  { camera := ⟨⟨0, 0, 5⟩, ⟨0, 0, 0⟩, ⟨0, 1, 0⟩, 60, 1/10, 100⟩,
    light := ⟨⟨0, 0, -1⟩, 0, 1⟩,
    view_matrix := mat4_identity, proj_matrix := mat4_identity,
    width := 128, height := 64,
    zbuffer := fun _ => 1000, display := fun _ => false }

def vertsC2 : List Vec3 := [⟨0, 0, 0⟩, ⟨1/32, 0, 0⟩, ⟨0, 1/32, 1/4⟩]

def faceC2 : Face := ⟨0, 1, 2, ⟨255, 255, 255⟩⟩

/-- C2 (counterexample): a face whose first projected vertex has depth
exactly 0 (which is non-positive) is NOT discarded by
render3d_draw_mesh: the code's near-plane test is `p.z < 0` (strict),
and this face is rasterized into five pixel writes. -/
theorem near_plane_zero_depth_cex :
    (project_point ctxC2 (vertsC2.getD faceC2.v0 vec3_zero) mat4_identity).z ≤ 0
    ∧ fillFaceWrites ctxC2 mat4_identity mat4_identity vertsC2 faceC2 ≠ [] := by
  constructor <;> with_unfolding_all decide

/-- C2 (amended): in both render3d_draw_mesh and
render3d_draw_mesh_wireframe a triangle is discarded whole (no pixel
write at all, never a clipped partial triangle) whenever any of its
three projected vertices has STRICTLY NEGATIVE depth (z < 0; a vertex
with depth exactly 0 is not rejected), and the two paths apply the
identical rejection rule: when no projected depth is negative the fill
path hands the whole unsplit triangle to the scanline rasterizer
(unless back-face culled) and the wireframe path draws its three whole
edges. -/
theorem near_plane_rejection_rule (ctx : RState) (model mvp : Mat4)
    (vertices : List Vec3) (face : Face) :
    (((project_point ctx (vertices.getD face.v0 vec3_zero) mvp).z < 0
      ∨ (project_point ctx (vertices.getD face.v1 vec3_zero) mvp).z < 0
      ∨ (project_point ctx (vertices.getD face.v2 vec3_zero) mvp).z < 0) →
      fillFaceWrites ctx model mvp vertices face = []
      ∧ wireFaceWrites ctx mvp vertices face = [])
    ∧ ((0 ≤ (project_point ctx (vertices.getD face.v0 vec3_zero) mvp).z
      ∧ 0 ≤ (project_point ctx (vertices.getD face.v1 vec3_zero) mvp).z
      ∧ 0 ≤ (project_point ctx (vertices.getD face.v2 vec3_zero) mvp).z) →
      fillFaceWrites ctx model mvp vertices face =
        (if backface_cull ctx.camera.position
            (mat4_transform_point model (vertices.getD face.v0 vec3_zero))
            (mat4_transform_point model (vertices.getD face.v1 vec3_zero))
            (mat4_transform_point model (vertices.getD face.v2 vec3_zero))
          then []
          else drawTriangleWrites ctx.width ctx.height
            (project_point ctx (vertices.getD face.v0 vec3_zero) mvp)
            (project_point ctx (vertices.getD face.v1 vec3_zero) mvp)
            (project_point ctx (vertices.getD face.v2 vec3_zero) mvp)
            (face_brightness
              (calculate_face_normal
                (mat4_transform_point model (vertices.getD face.v0 vec3_zero))
                (mat4_transform_point model (vertices.getD face.v1 vec3_zero))
                (mat4_transform_point model (vertices.getD face.v2 vec3_zero)))
              ctx.light))
      ∧ wireFaceWrites ctx mvp vertices face =
        ((render3d_draw_line
            (truncQ (project_point ctx (vertices.getD face.v0 vec3_zero) mvp).x)
            (truncQ (project_point ctx (vertices.getD face.v0 vec3_zero) mvp).y)
            (truncQ (project_point ctx (vertices.getD face.v1 vec3_zero) mvp).x)
            (truncQ (project_point ctx (vertices.getD face.v1 vec3_zero) mvp).y)).getD [])
        ++ ((render3d_draw_line
            (truncQ (project_point ctx (vertices.getD face.v1 vec3_zero) mvp).x)
            (truncQ (project_point ctx (vertices.getD face.v1 vec3_zero) mvp).y)
            (truncQ (project_point ctx (vertices.getD face.v2 vec3_zero) mvp).x)
            (truncQ (project_point ctx (vertices.getD face.v2 vec3_zero) mvp).y)).getD [])
        ++ ((render3d_draw_line
            (truncQ (project_point ctx (vertices.getD face.v2 vec3_zero) mvp).x)
            (truncQ (project_point ctx (vertices.getD face.v2 vec3_zero) mvp).y)
            (truncQ (project_point ctx (vertices.getD face.v0 vec3_zero) mvp).x)
            (truncQ (project_point ctx (vertices.getD face.v0 vec3_zero) mvp).y)).getD [])) := by
  constructor
  · intro h
    constructor
    · simp only [fillFaceWrites]
      split_ifs <;> rfl
    · simp only [wireFaceWrites]
      rw [if_pos h]
  · intro h
    have hnz : ¬((project_point ctx (vertices.getD face.v0 vec3_zero) mvp).z < 0
        ∨ (project_point ctx (vertices.getD face.v1 vec3_zero) mvp).z < 0
        ∨ (project_point ctx (vertices.getD face.v2 vec3_zero) mvp).z < 0) := by
      push_neg
      exact ⟨h.1, h.2.1, h.2.2⟩
    constructor
    · simp only [fillFaceWrites]
      split_ifs <;> rfl
    · simp only [wireFaceWrites]
      rw [if_neg hnz]

/-- C2 (witness): the amended theorem applied to a concrete face all of
whose projected vertices have depth −1/2 < 0: both paths discard it
whole. -/
theorem near_plane_rejection_rule_witness :
    ((project_point ctxC2 (([⟨0, 0, -1/2⟩, ⟨1/32, 0, -1/2⟩,
        ⟨0, 1/32, -1/2⟩] : List Vec3).getD (faceC2.v0) vec3_zero)
        mat4_identity).z < 0
      ∨ (project_point ctxC2 (([⟨0, 0, -1/2⟩, ⟨1/32, 0, -1/2⟩,
        ⟨0, 1/32, -1/2⟩] : List Vec3).getD (faceC2.v1) vec3_zero)
        mat4_identity).z < 0
      ∨ (project_point ctxC2 (([⟨0, 0, -1/2⟩, ⟨1/32, 0, -1/2⟩,
        ⟨0, 1/32, -1/2⟩] : List Vec3).getD (faceC2.v2) vec3_zero)
        mat4_identity).z < 0)
    ∧ fillFaceWrites ctxC2 mat4_identity mat4_identity
        [⟨0, 0, -1/2⟩, ⟨1/32, 0, -1/2⟩, ⟨0, 1/32, -1/2⟩] faceC2 = []
    ∧ wireFaceWrites ctxC2 mat4_identity
        [⟨0, 0, -1/2⟩, ⟨1/32, 0, -1/2⟩, ⟨0, 1/32, -1/2⟩] faceC2 = [] := by
  have h : (project_point ctxC2 (([⟨0, 0, -1/2⟩, ⟨1/32, 0, -1/2⟩,
      ⟨0, 1/32, -1/2⟩] : List Vec3).getD (faceC2.v0) vec3_zero)
      mat4_identity).z < 0
      ∨ (project_point ctxC2 (([⟨0, 0, -1/2⟩, ⟨1/32, 0, -1/2⟩,
      ⟨0, 1/32, -1/2⟩] : List Vec3).getD (faceC2.v1) vec3_zero)
      mat4_identity).z < 0
      ∨ (project_point ctxC2 (([⟨0, 0, -1/2⟩, ⟨1/32, 0, -1/2⟩,
      ⟨0, 1/32, -1/2⟩] : List Vec3).getD (faceC2.v2) vec3_zero)
      mat4_identity).z < 0 := by
    left
    with_unfolding_all decide
  have hr := (near_plane_rejection_rule ctxC2 mat4_identity mat4_identity
    [⟨0, 0, -1/2⟩, ⟨1/32, 0, -1/2⟩, ⟨0, 1/32, -1/2⟩] faceC2).1 h
  exact ⟨h, hr.1, hr.2⟩

-- ===========================================================================
-- Claim C5: depth-test machinery
-- ===========================================================================

/-- Does a write address pixel `p`? -/
def atP (p : ℤ × ℤ) (w : Write) : Bool := w.x == p.1 && w.y == p.2

/-- The unique write attempt a triangle makes at pixel `p` (if any):
the claim's "interpolated depth of the triangle at the pixel" is the
`z` field of this write. -/
def writeAt (ws : List Write) (p : ℤ × ℤ) : Option Write :=
  (ws.filter (atP p)).head?

/-- The action of one pixel-write attempt on a single cell
(depth, displayed bit) of the state, exactly the body of the scanline
loop: write only when the attempted depth is strictly below the stored
depth, with the display update going through the driver's bounds check. -/
def stepCell (c : ℚ × Bool) (w : Write) : ℚ × Bool :=
  if w.z < c.1 then
    (w.z,
     if w.x < 0 ∨ SSD1306_WIDTH ≤ w.x ∨ w.y < 0 ∨ SSD1306_HEIGHT ≤ w.y
       then c.2 else w.v)
  else c

lemma spanWrites_mem (y : ℤ) (b : ℚ) :
    ∀ (cnt : ℕ) (x : ℤ) (z dz : ℚ) (w : Write),
      w ∈ spanWrites y b x cnt z dz → w.y = y ∧ x ≤ w.x ∧ w.x < x + cnt := by
  intro cnt
  induction cnt with
  | zero => intro x z dz w hw; simp [spanWrites] at hw
  | succ n ih =>
    intro x z dz w hw
    simp only [spanWrites, List.mem_cons] at hw
    rcases hw with rfl | hw
    · refine ⟨rfl, le_refl _, ?_⟩
      push_cast
      omega
    · obtain ⟨h1, h2, h3⟩ := ih (x + 1) (z + dz) dz w hw
      refine ⟨h1, by omega, by push_cast at h3 ⊢; omega⟩

lemma spanWrites_filter_len (p : ℤ × ℤ) (y : ℤ) (b : ℚ) :
    ∀ (cnt : ℕ) (x : ℤ) (z dz : ℚ),
      ((spanWrites y b x cnt z dz).filter (atP p)).length ≤ 1 := by
  intro cnt
  induction cnt with
  | zero => intro x z dz; simp [spanWrites]
  | succ n ih =>
    intro x z dz
    simp only [spanWrites, List.filter_cons]
    split_ifs with hh
    · -- the head addresses p, so no tail write can: tail x-coords exceed x
      have hx : x = p.1 ∧ y = p.2 := by
        simpa [atP] using hh
      have htail : (spanWrites y b (x + 1) n (z + dz) dz).filter (atP p) = [] := by
        rw [List.filter_eq_nil_iff]
        intro w hw
        obtain ⟨_, h2, _⟩ := spanWrites_mem y b n (x + 1) (z + dz) dz w hw
        simp only [atP, Bool.and_eq_true, beq_iff_eq, not_and]
        intro hwx
        omega
      rw [htail]
      simp
    · exact ih (x + 1) (z + dz) dz

lemma scanline_mem (width height y : ℤ) (x1 x2 z1 z2 b : ℚ) (w : Write) :
    w ∈ draw_scanlineWrites width height y x1 x2 z1 z2 b →
      w.y = y ∧ 0 ≤ w.y ∧ w.y < height ∧ 0 ≤ w.x ∧ w.x < width := by
  intro hw
  simp only [draw_scanlineWrites] at hw
  split_ifs at hw <;>
    first
    | exact absurd hw (List.not_mem_nil _)
    | (obtain ⟨h1, h2, h3⟩ := spanWrites_mem _ _ _ _ _ _ _ hw
       exact ⟨h1, by omega, by omega, by omega, by omega⟩)

lemma scanline_filter_len (p : ℤ × ℤ) (width height y : ℤ)
    (x1 x2 z1 z2 b : ℚ) :
    ((draw_scanlineWrites width height y x1 x2 z1 z2 b).filter (atP p)).length ≤ 1 := by
  simp only [draw_scanlineWrites]
  split_ifs <;>
    first
    | exact spanWrites_filter_len p y b _ _ _ _
    | simp

lemma flatMap_blocks_filter_len (p : ℤ × ℤ) {g : ℕ → List Write} {yOf : ℕ → ℤ}
    (l : List ℕ) (hnd : l.Nodup)
    (hy : ∀ k w, w ∈ g k → w.y = yOf k)
    (hinj : ∀ k1 k2 : ℕ, yOf k1 = yOf k2 → k1 = k2)
    (hlen : ∀ k, ((g k).filter (atP p)).length ≤ 1) :
    ((l.flatMap g).filter (atP p)).length ≤ 1 := by
  induction l with
  | nil => simp
  | cons a l ih =>
    rw [List.flatMap_cons, List.filter_append, List.length_append]
    rcases List.nodup_cons.1 hnd with ⟨hal, hndl⟩
    cases h : (g a).filter (atP p) with
    | nil =>
      simpa using ih hndl
    | cons w ws =>
      have hw : w ∈ (g a).filter (atP p) := by
        rw [h]; exact List.mem_cons_self _ _
      have hwp := List.mem_filter.1 hw
      have hat : w.x = p.1 ∧ w.y = p.2 := by
        have := hwp.2
        simpa [atP] using this
      have hya : yOf a = p.2 := by
        have := hy a w hwp.1
        omega
      have hrest : (l.flatMap g).filter (atP p) = [] := by
        rw [List.filter_eq_nil_iff]
        intro w' hw'
        rcases List.mem_flatMap.1 hw' with ⟨k, hk, hwk⟩
        have hyk := hy k w' hwk
        simp only [atP, Bool.and_eq_true, beq_iff_eq, not_and]
        intro _ hyy
        have hka : k = a := hinj k a (by omega)
        exact hal (hka ▸ hk)
      rw [hrest]
      have := hlen a
      rw [h] at this
      simpa using this

set_option maxHeartbeats 1600000 in
lemma triangle_filter_len (W H : ℤ) (p0 p1 p2 : Vec3) (b : ℚ) (p : ℤ × ℤ) :
    ((drawTriangleWrites W H p0 p1 p2 b).filter (atP p)).length ≤ 1 := by
  simp only [drawTriangleWrites]
  split_ifs <;>
    first
    | (simp; done)
    | exact flatMap_blocks_filter_len p _ (List.nodup_range _)
        (by intro k w hw; exact (scanline_mem _ _ _ _ _ _ _ _ _ hw).1)
        (fun k1 k2 h => by omega)
        (fun k => scanline_filter_len _ _ _ _ _ _ _ _ _)

set_option maxHeartbeats 1600000 in
lemma triangle_mem (W H : ℤ) (p0 p1 p2 : Vec3) (b : ℚ) (w : Write) :
    w ∈ drawTriangleWrites W H p0 p1 p2 b →
      0 ≤ w.x ∧ w.x < W ∧ 0 ≤ w.y ∧ w.y < H := by
  intro hw
  simp only [drawTriangleWrites] at hw
  split_ifs at hw <;>
    first
    | exact absurd hw (List.not_mem_nil _)
    | (rcases List.mem_flatMap.1 hw with ⟨k, _, hwk⟩
       obtain ⟨_, h2, h3, h4, h5⟩ := scanline_mem _ _ _ _ _ _ _ _ _ hwk
       exact ⟨h4, h5, h2, h3⟩)

lemma applyWrite_cell_z (s : RState) (w : Write) (p : ℤ × ℤ) :
    (applyWrite s w).zbuffer p =
      (if atP p w then (stepCell (s.zbuffer p, s.display p) w).1
       else s.zbuffer p) := by
  by_cases hat : atP p w
  · have hxy : w.x = p.1 ∧ w.y = p.2 := by simpa [atP] using hat
    have hp : p = (w.x, w.y) := by
      rcases p with ⟨px, py⟩
      simp only [Prod.mk.injEq]
      exact ⟨hxy.1.symm, hxy.2.symm⟩
    subst hp
    rw [if_pos hat]
    unfold applyWrite stepCell
    by_cases hz : w.z < s.zbuffer (w.x, w.y)
    · rw [if_pos hz, if_pos (show w.z <
        ((s.zbuffer (w.x, w.y), s.display (w.x, w.y)) : ℚ × Bool).1 from hz)]
      show (if ((w.x, w.y) : ℤ × ℤ) = (w.x, w.y) then w.z
        else s.zbuffer (w.x, w.y)) = w.z
      rw [if_pos rfl]
    · rw [if_neg hz, if_neg (show ¬ w.z <
        ((s.zbuffer (w.x, w.y), s.display (w.x, w.y)) : ℚ × Bool).1 from hz)]
  · have hp : ¬p = (w.x, w.y) := by
      intro hcon
      apply hat
      simp [atP, hcon]
    rw [if_neg hat]
    unfold applyWrite
    by_cases hz : w.z < s.zbuffer (w.x, w.y)
    · rw [if_pos hz]
      show (if p = (w.x, w.y) then w.z else s.zbuffer p) = s.zbuffer p
      rw [if_neg hp]
    · rw [if_neg hz]

lemma applyWrite_cell_d (s : RState) (w : Write) (p : ℤ × ℤ) :
    (applyWrite s w).display p =
      (if atP p w then (stepCell (s.zbuffer p, s.display p) w).2
       else s.display p) := by
  by_cases hat : atP p w
  · have hxy : w.x = p.1 ∧ w.y = p.2 := by simpa [atP] using hat
    have hp : p = (w.x, w.y) := by
      rcases p with ⟨px, py⟩
      simp only [Prod.mk.injEq]
      exact ⟨hxy.1.symm, hxy.2.symm⟩
    subst hp
    rw [if_pos hat]
    unfold applyWrite stepCell ssd1306_set_pixel
    by_cases hz : w.z < s.zbuffer (w.x, w.y)
    · rw [if_pos hz, if_pos (show w.z <
        ((s.zbuffer (w.x, w.y), s.display (w.x, w.y)) : ℚ × Bool).1 from hz)]
      by_cases hb : w.x < 0 ∨ SSD1306_WIDTH ≤ w.x ∨ w.y < 0 ∨ SSD1306_HEIGHT ≤ w.y
      · rw [if_pos hb, if_pos hb]
      · rw [if_neg hb, if_neg hb]
        show (if ((w.x, w.y) : ℤ × ℤ) = (w.x, w.y) then w.v
          else s.display (w.x, w.y)) = w.v
        rw [if_pos rfl]
    · rw [if_neg hz, if_neg (show ¬ w.z <
        ((s.zbuffer (w.x, w.y), s.display (w.x, w.y)) : ℚ × Bool).1 from hz)]
  · have hp : ¬p = (w.x, w.y) := by
      intro hcon
      apply hat
      simp [atP, hcon]
    rw [if_neg hat]
    unfold applyWrite ssd1306_set_pixel
    by_cases hz : w.z < s.zbuffer (w.x, w.y)
    · rw [if_pos hz]
      by_cases hb : w.x < 0 ∨ SSD1306_WIDTH ≤ w.x ∨ w.y < 0 ∨ SSD1306_HEIGHT ≤ w.y
      · rw [if_pos hb]
      · rw [if_neg hb]
        show (if p = (w.x, w.y) then w.v else s.display p) = s.display p
        rw [if_neg hp]
    · rw [if_neg hz]

lemma applyWrites_cell (ws : List Write) :
    ∀ (s : RState) (p : ℤ × ℤ),
      ((applyWrites s ws).zbuffer p, (applyWrites s ws).display p) =
        (ws.filter (atP p)).foldl stepCell (s.zbuffer p, s.display p) := by
  induction ws with
  | nil => intro s p; rfl
  | cons w ws ih =>
    intro s p
    have ih' := ih (applyWrite s w) p
    simp only [applyWrites, List.foldl_cons] at ih' ⊢
    rw [ih', List.filter_cons, applyWrite_cell_z, applyWrite_cell_d]
    by_cases hat : atP p w
    · rw [if_pos hat, if_pos hat, if_pos hat, List.foldl_cons, Prod.mk.eta]
    · rw [if_neg hat, if_neg hat, if_neg hat]

/-- For an in-bounds write, the display bounds check inside the cell
step vanishes. -/
lemma stepCell_inbounds (w : Write)
    (hb : ¬(w.x < 0 ∨ SSD1306_WIDTH ≤ w.x ∨ w.y < 0 ∨ SSD1306_HEIGHT ≤ w.y)) :
    ∀ c : ℚ × Bool, stepCell c w = if w.z < c.1 then (w.z, w.v) else c := by
  intro c
  unfold stepCell
  rw [if_neg hb]

/-- The depth test applied to two in-bounds writes of different depths
starting from a cleared cell: the result is independent of the order,
and is the nearer write when its depth beats the clear sentinel. -/
lemma stepCell_pair (w1 w2 : Write) (hne : w1.z ≠ w2.z)
    (hb1 : ¬(w1.x < 0 ∨ SSD1306_WIDTH ≤ w1.x ∨ w1.y < 0 ∨ SSD1306_HEIGHT ≤ w1.y))
    (hb2 : ¬(w2.x < 0 ∨ SSD1306_WIDTH ≤ w2.x ∨ w2.y < 0 ∨ SSD1306_HEIGHT ≤ w2.y)) :
    stepCell (stepCell ((1000 : ℚ), false) w1) w2 =
      stepCell (stepCell ((1000 : ℚ), false) w2) w1
    ∧ (w1.z < w2.z → w1.z < 1000 →
        stepCell (stepCell ((1000 : ℚ), false) w1) w2 = (w1.z, w1.v))
    ∧ (w2.z < w1.z → w2.z < 1000 →
        stepCell (stepCell ((1000 : ℚ), false) w1) w2 = (w2.z, w2.v)) := by
  have e1 := stepCell_inbounds w1 hb1
  have e2 := stepCell_inbounds w2 hb2
  rcases lt_trichotomy w1.z w2.z with hlt | heq | hlt
  · by_cases ha : w1.z < (1000 : ℚ)
    · have s1 : stepCell ((1000 : ℚ), false) w1 = (w1.z, w1.v) := by
        rw [e1]; exact if_pos ha
      have s12 : stepCell (stepCell ((1000 : ℚ), false) w1) w2 = (w1.z, w1.v) := by
        rw [s1, e2]
        exact if_neg (by simpa using hlt.not_lt)
      have s21 : stepCell (stepCell ((1000 : ℚ), false) w2) w1 = (w1.z, w1.v) := by
        by_cases hb : w2.z < (1000 : ℚ)
        · rw [e2, if_pos hb, e1]
          exact if_pos (by simpa using hlt)
        · rw [e2, if_neg hb, e1]
          exact if_pos (by simpa using ha)
      exact ⟨s12.trans s21.symm, fun _ _ => s12, fun h _ => absurd hlt h.asymm⟩
    · have hbz : ¬ w2.z < (1000 : ℚ) := fun hc => ha (hlt.trans hc)
      have s12 : stepCell (stepCell ((1000 : ℚ), false) w1) w2 =
          ((1000 : ℚ), false) := by
        rw [e1, if_neg ha, e2]
        exact if_neg (by simpa using hbz)
      have s21 : stepCell (stepCell ((1000 : ℚ), false) w2) w1 =
          ((1000 : ℚ), false) := by
        rw [e2, if_neg hbz, e1]
        exact if_neg (by simpa using ha)
      exact ⟨s12.trans s21.symm, fun _ hc => absurd hc ha,
        fun h _ => absurd hlt h.asymm⟩
  · exact absurd heq hne
  · by_cases ha : w2.z < (1000 : ℚ)
    · have s2 : stepCell ((1000 : ℚ), false) w2 = (w2.z, w2.v) := by
        rw [e2]; exact if_pos ha
      have s21 : stepCell (stepCell ((1000 : ℚ), false) w2) w1 = (w2.z, w2.v) := by
        rw [s2, e1]
        exact if_neg (by simpa using hlt.not_lt)
      have s12 : stepCell (stepCell ((1000 : ℚ), false) w1) w2 = (w2.z, w2.v) := by
        by_cases hb : w1.z < (1000 : ℚ)
        · rw [e1, if_pos hb, e2]
          exact if_pos (by simpa using hlt)
        · rw [e1, if_neg hb, e2]
          exact if_pos (by simpa using ha)
      exact ⟨s12.trans s21.symm, fun h _ => absurd hlt h.asymm, fun _ _ => s12⟩
    · have hbz : ¬ w1.z < (1000 : ℚ) := fun hc => ha (hlt.trans hc)
      have s12 : stepCell (stepCell ((1000 : ℚ), false) w1) w2 =
          ((1000 : ℚ), false) := by
        rw [e1, if_neg hbz, e2]
        exact if_neg (by simpa using ha)
      have s21 : stepCell (stepCell ((1000 : ℚ), false) w2) w1 =
          ((1000 : ℚ), false) := by
        rw [e2, if_neg ha, e1]
        exact if_neg (by simpa using hbz)
      exact ⟨s12.trans s21.symm, fun h _ => absurd hlt h.asymm,
        fun _ hc => absurd hc ha⟩

lemma filter_head_singleton {l : List Write} {w : Write}
    (hlen : l.length ≤ 1) (hh : l.head? = some w) : l = [w] := by
  cases l with
  | nil => simp at hh
  | cons a l' =>
    cases l' with
    | nil =>
      simp only [List.head?_cons, Option.some.injEq] at hh
      rw [hh]
    | cons b l'' => simp at hlen

lemma applyWrite_dims (s : RState) (w : Write) :
    (applyWrite s w).width = s.width ∧ (applyWrite s w).height = s.height := by
  unfold applyWrite
  split_ifs <;> exact ⟨rfl, rfl⟩

lemma applyWrites_dims (ws : List Write) :
    ∀ s : RState,
      (applyWrites s ws).width = s.width ∧ (applyWrites s ws).height = s.height := by
  induction ws with
  | nil => intro s; exact ⟨rfl, rfl⟩
  | cons w ws ih =>
    intro s
    have h := ih (applyWrite s w)
    simp only [applyWrites, List.foldl_cons] at h ⊢
    exact ⟨h.1.trans (applyWrite_dims s w).1, h.2.trans (applyWrite_dims s w).2⟩

/-- Clearing and then rasterizing two triangles through
draw_triangle_flat, in the given submission order. -/
def rasterize_two (s : RState) (a0 a1 a2 : Vec3) (bA : ℚ)
    (b0 b1 b2 : Vec3) (bB : ℚ) : RState :=
  draw_triangle_flat (draw_triangle_flat (render3d_clear s) a0 a1 a2 bA)
    b0 b1 b2 bB

lemma rasterize_two_eq (s : RState) (a0 a1 a2 : Vec3) (bA : ℚ)
    (b0 b1 b2 : Vec3) (bB : ℚ) :
    rasterize_two s a0 a1 a2 bA b0 b1 b2 bB =
      applyWrites
        (applyWrites (render3d_clear s)
          (drawTriangleWrites s.width s.height a0 a1 a2 bA))
        (drawTriangleWrites s.width s.height b0 b1 b2 bB) := by
  unfold rasterize_two draw_triangle_flat
  have e1 : (render3d_clear s).width = s.width := rfl
  have e2 : (render3d_clear s).height = s.height := rfl
  rw [e1, e2]
  have h := applyWrites_dims
    (drawTriangleWrites s.width s.height a0 a1 a2 bA) (render3d_clear s)
  rw [h.1, h.2, e1, e2]

/-- C5: after a clear, rasterizing two triangles through the scanline
pipeline in either submission order gives the same depth-buffer value
and the same displayed pixel at any screen pixel where both triangles
attempt a write with different interpolated depths, and the visible
pixel is the nearer (smaller-depth) triangle's dithered value whenever
that depth beats the 1000.0 clear sentinel. -/
theorem depth_test_order_independent (s : RState)
    (a0 a1 a2 : Vec3) (bA : ℚ) (b0 b1 b2 : Vec3) (bB : ℚ)
    (p : ℤ × ℤ) (w1 w2 : Write)
    (hwidth : s.width ≤ 128) (hheight : s.height ≤ 64)
    (h1 : writeAt (drawTriangleWrites s.width s.height a0 a1 a2 bA) p = some w1)
    (h2 : writeAt (drawTriangleWrites s.width s.height b0 b1 b2 bB) p = some w2)
    (hne : w1.z ≠ w2.z) :
    ((rasterize_two s a0 a1 a2 bA b0 b1 b2 bB).zbuffer p =
        (rasterize_two s b0 b1 b2 bB a0 a1 a2 bA).zbuffer p
      ∧ (rasterize_two s a0 a1 a2 bA b0 b1 b2 bB).display p =
        (rasterize_two s b0 b1 b2 bB a0 a1 a2 bA).display p)
    ∧ (w1.z < w2.z → w1.z < 1000 →
        (rasterize_two s a0 a1 a2 bA b0 b1 b2 bB).display p = w1.v
        ∧ (rasterize_two s a0 a1 a2 bA b0 b1 b2 bB).zbuffer p = w1.z)
    ∧ (w2.z < w1.z → w2.z < 1000 →
        (rasterize_two s a0 a1 a2 bA b0 b1 b2 bB).display p = w2.v
        ∧ (rasterize_two s a0 a1 a2 bA b0 b1 b2 bB).zbuffer p = w2.z) := by
  set WA := drawTriangleWrites s.width s.height a0 a1 a2 bA with hWA
  set WB := drawTriangleWrites s.width s.height b0 b1 b2 bB with hWB
  have hfA : WA.filter (atP p) = [w1] :=
    filter_head_singleton (triangle_filter_len s.width s.height a0 a1 a2 bA p) h1
  have hfB : WB.filter (atP p) = [w2] :=
    filter_head_singleton (triangle_filter_len s.width s.height b0 b1 b2 bB p) h2
  have hm1 : w1 ∈ WA := by
    have : w1 ∈ WA.filter (atP p) := by rw [hfA]; exact List.mem_cons_self _ _
    exact (List.mem_filter.1 this).1
  have hm2 : w2 ∈ WB := by
    have : w2 ∈ WB.filter (atP p) := by rw [hfB]; exact List.mem_cons_self _ _
    exact (List.mem_filter.1 this).1
  obtain ⟨hx1a, hx1b, hy1a, hy1b⟩ := triangle_mem _ _ _ _ _ _ _ hm1
  obtain ⟨hx2a, hx2b, hy2a, hy2b⟩ := triangle_mem _ _ _ _ _ _ _ hm2
  have hb1 : ¬(w1.x < 0 ∨ SSD1306_WIDTH ≤ w1.x ∨ w1.y < 0 ∨ SSD1306_HEIGHT ≤ w1.y) := by
    simp only [SSD1306_WIDTH, SSD1306_HEIGHT]
    omega
  have hb2 : ¬(w2.x < 0 ∨ SSD1306_WIDTH ≤ w2.x ∨ w2.y < 0 ∨ SSD1306_HEIGHT ≤ w2.y) := by
    simp only [SSD1306_WIDTH, SSD1306_HEIGHT]
    omega
  have cAB : ((rasterize_two s a0 a1 a2 bA b0 b1 b2 bB).zbuffer p,
      (rasterize_two s a0 a1 a2 bA b0 b1 b2 bB).display p) =
      stepCell (stepCell ((1000 : ℚ), false) w1) w2 := by
    rw [rasterize_two_eq, ← hWA, ← hWB]
    have c2 := applyWrites_cell WB (applyWrites (render3d_clear s) WA) p
    have c1 := applyWrites_cell WA (render3d_clear s) p
    rw [c1] at c2
    rw [c2, hfA, hfB]
    rfl
  have cBA : ((rasterize_two s b0 b1 b2 bB a0 a1 a2 bA).zbuffer p,
      (rasterize_two s b0 b1 b2 bB a0 a1 a2 bA).display p) =
      stepCell (stepCell ((1000 : ℚ), false) w2) w1 := by
    rw [rasterize_two_eq, ← hWA, ← hWB]
    have c2 := applyWrites_cell WA (applyWrites (render3d_clear s) WB) p
    have c1 := applyWrites_cell WB (render3d_clear s) p
    rw [c1] at c2
    rw [c2, hfA, hfB]
    rfl
  obtain ⟨hcomm, hn1, hn2⟩ := stepCell_pair w1 w2 hne hb1 hb2
  refine ⟨?_, ?_, ?_⟩
  · have := cAB.trans (hcomm.trans cBA.symm)
    exact ⟨congrArg Prod.fst this, congrArg Prod.snd this⟩
  · intro hlt hs
    have := cAB.trans (hn1 hlt hs)
    exact ⟨congrArg Prod.snd this, congrArg Prod.fst this⟩
  · intro hlt hs
    have := cAB.trans (hn2 hlt hs)
    exact ⟨congrArg Prod.snd this, congrArg Prod.fst this⟩

/-- C5 (witness): two concrete overlapping flat triangles at constant
depths 1/2 (bright) and 1/4 (dark), overlapping at pixel (10,10): both
submission orders leave depth 1/4 there and the dark (nearer) triangle's
pixel value false visible. -/
theorem depth_test_order_independent_witness :
    writeAt (drawTriangleWrites ctxC2.width ctxC2.height
        ⟨10, 10, 1/2⟩ ⟨12, 10, 1/2⟩ ⟨10, 12, 1/2⟩ 1) (10, 10) =
      some ⟨10, 10, 1/2, true⟩
    ∧ writeAt (drawTriangleWrites ctxC2.width ctxC2.height
        ⟨10, 10, 1/4⟩ ⟨12, 10, 1/4⟩ ⟨10, 12, 1/4⟩ (1/100)) (10, 10) =
      some ⟨10, 10, 1/4, false⟩
    ∧ (rasterize_two ctxC2 ⟨10, 10, 1/2⟩ ⟨12, 10, 1/2⟩ ⟨10, 12, 1/2⟩ 1
        ⟨10, 10, 1/4⟩ ⟨12, 10, 1/4⟩ ⟨10, 12, 1/4⟩ (1/100)).zbuffer (10, 10) =
      (rasterize_two ctxC2 ⟨10, 10, 1/4⟩ ⟨12, 10, 1/4⟩ ⟨10, 12, 1/4⟩ (1/100)
        ⟨10, 10, 1/2⟩ ⟨12, 10, 1/2⟩ ⟨10, 12, 1/2⟩ 1).zbuffer (10, 10)
    ∧ (rasterize_two ctxC2 ⟨10, 10, 1/2⟩ ⟨12, 10, 1/2⟩ ⟨10, 12, 1/2⟩ 1
        ⟨10, 10, 1/4⟩ ⟨12, 10, 1/4⟩ ⟨10, 12, 1/4⟩ (1/100)).display (10, 10) =
      (rasterize_two ctxC2 ⟨10, 10, 1/4⟩ ⟨12, 10, 1/4⟩ ⟨10, 12, 1/4⟩ (1/100)
        ⟨10, 10, 1/2⟩ ⟨12, 10, 1/2⟩ ⟨10, 12, 1/2⟩ 1).display (10, 10)
    ∧ (rasterize_two ctxC2 ⟨10, 10, 1/2⟩ ⟨12, 10, 1/2⟩ ⟨10, 12, 1/2⟩ 1
        ⟨10, 10, 1/4⟩ ⟨12, 10, 1/4⟩ ⟨10, 12, 1/4⟩ (1/100)).display (10, 10) = false
    ∧ (rasterize_two ctxC2 ⟨10, 10, 1/2⟩ ⟨12, 10, 1/2⟩ ⟨10, 12, 1/2⟩ 1
        ⟨10, 10, 1/4⟩ ⟨12, 10, 1/4⟩ ⟨10, 12, 1/4⟩ (1/100)).zbuffer (10, 10) = 1/4 := by
  have h1 : writeAt (drawTriangleWrites ctxC2.width ctxC2.height
      ⟨10, 10, 1/2⟩ ⟨12, 10, 1/2⟩ ⟨10, 12, 1/2⟩ 1) (10, 10) =
      some ⟨10, 10, 1/2, true⟩ := by with_unfolding_all rfl
  have h2 : writeAt (drawTriangleWrites ctxC2.width ctxC2.height
      ⟨10, 10, 1/4⟩ ⟨12, 10, 1/4⟩ ⟨10, 12, 1/4⟩ (1/100)) (10, 10) =
      some ⟨10, 10, 1/4, false⟩ := by with_unfolding_all rfl
  have hth := depth_test_order_independent ctxC2
    ⟨10, 10, 1/2⟩ ⟨12, 10, 1/2⟩ ⟨10, 12, 1/2⟩ 1
    ⟨10, 10, 1/4⟩ ⟨12, 10, 1/4⟩ ⟨10, 12, 1/4⟩ (1/100)
    (10, 10) ⟨10, 10, 1/2, true⟩ ⟨10, 10, 1/4, false⟩
    (by with_unfolding_all decide) (by with_unfolding_all decide) h1 h2
    (by with_unfolding_all decide)
  exact ⟨h1, h2, hth.1.1, hth.1.2,
    (hth.2.2 (by with_unfolding_all decide) (by with_unfolding_all decide)).1,
    (hth.2.2 (by with_unfolding_all decide) (by with_unfolding_all decide)).2⟩

-- ===========================================================================
-- Claim C10: termination of the Bresenham loop
-- ===========================================================================

/-- Invariant-carrying termination lemma for the Bresenham loop: if the
current point is `a` x-steps and `b` y-steps away from the end point
(`0 ≤ a ≤ dx`, `0 ≤ b ≤ dy`) and the error term has its invariant value
`dx - dy + a*dy - b*dx`, then fuel exceeding `a + b` suffices for the
loop to reach its exit condition. -/
lemma bresLoop_isSome (x1 y1 dx dy sx sy : ℤ) (hdx : 0 ≤ dx) (hdy : 0 ≤ dy)
    (hsx : sx = 1 ∨ sx = -1) (hsy : sy = 1 ∨ sy = -1) :
    ∀ (n : ℕ) (a b : ℤ), 0 ≤ a → a ≤ dx → 0 ≤ b → b ≤ dy → a + b < (n : ℤ) →
    (bresLoop x1 y1 dx dy sx sy n (x1 - a * sx) (y1 - b * sy)
      (dx - dy + a * dy - b * dx)).isSome := by
  intro n
  induction n with
  | zero =>
    intro a b ha0 _ hb0 _ hab
    exfalso
    push_cast at hab
    omega
  | succ n ih =>
    intro a b ha0 hadx hb0 hbdy hab
    simp only [bresLoop]
    by_cases hbreak : x1 - a * sx = x1 ∧ y1 - b * sy = y1
    · rw [if_pos hbreak]
      exact Option.isSome_some
    · rw [if_neg hbreak]
      have hax : (x1 - a * sx = x1) ↔ a = 0 := by
        rcases hsx with rfl | rfl <;> constructor <;> intro h <;> omega
      have hby : (y1 - b * sy = y1) ↔ b = 0 := by
        rcases hsy with rfl | rfl <;> constructor <;> intro h <;> omega
      have hnot : ¬(a = 0 ∧ b = 0) := fun hh => hbreak ⟨hax.2 hh.1, hby.2 hh.2⟩
      by_cases hx : 2 * (dx - dy + a * dy - b * dx) > -dy
      · -- the x branch steps; it cannot fire with a = 0
        have ha1 : 1 ≤ a := by
          rcases lt_or_le 0 a with h | h
          · omega
          · exfalso
            have haz : a = 0 := le_antisymm h ha0
            have hb1 : 1 ≤ b := by
              rcases lt_or_le 0 b with h2 | h2
              · omega
              · exact absurd ⟨haz, le_antisymm h2 hb0⟩ hnot
            have hprod : 0 ≤ dx * (b - 1) := mul_nonneg hdx (by omega)
            rw [haz] at hx
            nlinarith
        by_cases hy : 2 * (dx - dy + a * dy - b * dx) < dx
        · -- both branches step
          have hb1 : 1 ≤ b := by
            rcases lt_or_le 0 b with h | h
            · omega
            · exfalso
              have hbz : b = 0 := le_antisymm h hb0
              have hprod : 0 ≤ dy * (a - 1) := mul_nonneg hdy (by omega)
              rw [hbz] at hy
              nlinarith
          rw [if_pos hx, if_pos hx, if_pos hy, if_pos hy]
          have h1 : x1 - a * sx + sx = x1 - (a - 1) * sx := by ring
          have h2 : y1 - b * sy + sy = y1 - (b - 1) * sy := by ring
          have h3 : dx - dy + a * dy - b * dx - dy + dx =
              dx - dy + (a - 1) * dy - (b - 1) * dx := by ring
          rw [h1, h2, h3]
          have := ih (a - 1) (b - 1) (by omega) (by omega) (by omega) (by omega)
            (by push_cast at hab ⊢; omega)
          rcases Option.isSome_iff_exists.1 this with ⟨w, hw⟩
          rw [hw]
          exact Option.isSome_some
        · -- only the x branch steps
          rw [if_pos hx, if_pos hx, if_neg hy, if_neg hy]
          have h1 : x1 - a * sx + sx = x1 - (a - 1) * sx := by ring
          have h3 : dx - dy + a * dy - b * dx - dy =
              dx - dy + (a - 1) * dy - b * dx := by ring
          rw [h1, h3]
          have := ih (a - 1) b (by omega) (by omega) hb0 hbdy
            (by push_cast at hab ⊢; omega)
          rcases Option.isSome_iff_exists.1 this with ⟨w, hw⟩
          rw [hw]
          exact Option.isSome_some
      · by_cases hy : 2 * (dx - dy + a * dy - b * dx) < dx
        · -- only the y branch steps; it cannot fire with b = 0
          have hb1 : 1 ≤ b := by
            rcases lt_or_le 0 b with h | h
            · omega
            · exfalso
              have hbz : b = 0 := le_antisymm h hb0
              have ha1 : 1 ≤ a := by
                rcases lt_or_le 0 a with h2 | h2
                · omega
                · exact absurd ⟨le_antisymm h2 ha0, hbz⟩ hnot
              have hprod : 0 ≤ dy * (a - 1) := mul_nonneg hdy (by omega)
              rw [hbz] at hy
              nlinarith
          rw [if_neg hx, if_neg hx, if_pos hy, if_pos hy]
          have h2 : y1 - b * sy + sy = y1 - (b - 1) * sy := by ring
          have h3 : dx - dy + a * dy - b * dx + dx =
              dx - dy + a * dy - (b - 1) * dx := by ring
          rw [h2, h3]
          have := ih a (b - 1) ha0 hadx (by omega) (by omega)
            (by push_cast at hab ⊢; omega)
          rcases Option.isSome_iff_exists.1 this with ⟨w, hw⟩
          rw [hw]
          exact Option.isSome_some
        · -- neither branch could step: only possible at the end point
          exfalso
          have h1 : 2 * (dx - dy + a * dy - b * dx) ≤ -dy := by omega
          have h2 : dx ≤ 2 * (dx - dy + a * dy - b * dx) := by omega
          have hdd : dx + dy ≤ 0 := by nlinarith
          have hdx0 : dx = 0 := by omega
          have hdy0 : dy = 0 := by omega
          exact hnot ⟨by omega, by omega⟩

/-- C10: render3d_draw_line terminates for every pair of integer
endpoints: its Bresenham loop reaches the exit condition
`x0 == x1 && y0 == y1` within `|x1−x0| + |y1−y0| + 1` iterations (the
fuel `render3d_draw_line` runs it with). -/
theorem draw_line_terminates (x0 y0 x1 y1 : ℤ) :
    (render3d_draw_line x0 y0 x1 y1).isSome := by
  unfold render3d_draw_line
  have h := bresLoop_isSome x1 y1 |x1 - x0| |y1 - y0|
    (if x0 < x1 then 1 else -1) (if y0 < y1 then 1 else -1)
    (abs_nonneg _) (abs_nonneg _)
    (by split_ifs <;> simp) (by split_ifs <;> simp)
    (|x1 - x0| + |y1 - y0| + 1).toNat |x1 - x0| |y1 - y0|
    (abs_nonneg _) le_rfl (abs_nonneg _) le_rfl
    (by
      rw [Int.toNat_of_nonneg (by positivity)]
      omega)
  have hx : x1 - |x1 - x0| * (if x0 < x1 then 1 else -1) = x0 := by
    split_ifs with hlt
    · rw [abs_of_nonneg (by omega : (0:ℤ) ≤ x1 - x0)]; ring
    · rw [abs_of_nonpos (by omega : x1 - x0 ≤ 0)]; ring
  have hy : y1 - |y1 - y0| * (if y0 < y1 then 1 else -1) = y0 := by
    split_ifs with hlt
    · rw [abs_of_nonneg (by omega : (0:ℤ) ≤ y1 - y0)]; ring
    · rw [abs_of_nonpos (by omega : y1 - y0 ≤ 0)]; ring
  have herr : |x1 - x0| - |y1 - y0| + |x1 - x0| * |y1 - y0|
      - |y1 - y0| * |x1 - x0| = |x1 - x0| - |y1 - y0| := by ring
  rw [hx, hy, herr] at h
  exact h

-- ===========================================================================
-- Claim C6: the sphere builder
-- ===========================================================================

/-- mesh_calculate_normals: zero the per-vertex normals, accumulate
every face's geometric normal at its three vertex slots (with
multiplicity, in face order), then normalize.  The C code's in-place
indexed accumulation is expressed per result index. -/
def mesh_calculate_normals (m : Mesh) : Mesh :=
  let normals := (List.range m.vertex_count).map fun i =>
    vec3_normalize
      ((m.faces.take m.face_count).foldl
        (fun acc f =>
          let n := calculate_face_normal
            (m.vertices.getD f.v0 vec3_zero)
            (m.vertices.getD f.v1 vec3_zero)
            (m.vertices.getD f.v2 vec3_zero)
          let acc := if f.v0 = i then vec3_add acc n else acc
          let acc := if f.v1 = i then vec3_add acc n else acc
          if f.v2 = i then vec3_add acc n else acc)
        vec3_zero)
  { m with normals := normals, normal_count := m.vertex_count }

/-- The two sequential clamps at the top of mesh_create_sphere. -/
def clampSegments (segments : ℤ) : ℤ :=
  let s := if segments < 4 then 4 else segments
  if s > 16 then 16 else s

def sphereRings (segments : ℤ) : ℕ := (clampSegments segments).toNat

def sphereSlices (segments : ℤ) : ℕ := (clampSegments segments).toNat * 2

/-- mesh_create_sphere, parameterized over M_PI and the trigonometric
functions (which only shape the vertex coordinates, never the counts):
top pole, `rings − 1` latitude rings of `slices` vertices, bottom pole;
a fan at each cap and two triangles per quad in between; normals
recomputed at the end.  (Allocation always succeeds in the model; the
claim is conditional on successful allocation.) -/
def mesh_create_sphere (pi : ℚ) (cosf sinf : ℚ → ℚ) (radius : ℚ)
    (segments : ℤ) : Mesh :=
  let rings := sphereRings segments
  let slices := sphereSlices segments
  let middle := (List.range (rings - 1)).flatMap fun r0 =>
    let phi := pi * ((r0 + 1 : ℕ) : ℚ) / (rings : ℚ)
    let yy := radius * cosf phi
    let ring_r := radius * sinf phi
    (List.range slices).map fun sidx =>
      let theta := 2 * pi * ((sidx : ℕ) : ℚ) / (slices : ℚ)
      (⟨ring_r * cosf theta, yy, ring_r * sinf theta⟩ : Vec3)
  let vertices := (⟨0, radius, 0⟩ : Vec3) :: middle ++ [⟨0, -radius, 0⟩]
  let vertex_count := vertices.length
  let sphere_color : Color := ⟨255, 220, 180⟩
  let top_cap := (List.range slices).map fun sidx =>
    (⟨0, 1 + sidx, 1 + (sidx + 1) % slices, sphere_color⟩ : Face)
  let middle_faces := (List.range (rings - 2)).flatMap fun r =>
    let ring_start := 1 + r * slices
    let next_ring := 1 + (r + 1) * slices
    (List.range slices).flatMap fun sidx =>
      let s_next := (sidx + 1) % slices
      [(⟨ring_start + sidx, next_ring + sidx, next_ring + s_next,
          sphere_color⟩ : Face),
       (⟨ring_start + sidx, next_ring + s_next, ring_start + s_next,
          sphere_color⟩ : Face)]
  let last_ring := 1 + (rings - 2) * slices
  let bottom := vertex_count - 1
  let bottom_cap := (List.range slices).map fun sidx =>
    (⟨bottom, last_ring + (sidx + 1) % slices, last_ring + sidx,
        sphere_color⟩ : Face)
  let faces := top_cap ++ middle_faces ++ bottom_cap
  mesh_calculate_normals
    { vertices := vertices, normals := [], faces := faces,
      vertex_count := vertex_count, normal_count := 0,
      face_count := faces.length,
      position := ⟨0, 0, 0⟩, rotation := ⟨0, 0, 0⟩, scale := ⟨1, 1, 1⟩ }

/-- C6: mesh_create_sphere clamps its segment count into [4,16] (so the
out-of-range input 100 produces a mesh identical to 16), and with
`rings` the clamped count and `slices = 2 × rings` the resulting mesh
has `(rings−1)×slices + 2` vertices and
`(rings−2)×slices×2 + slices×2` faces. -/
theorem mesh_create_sphere_counts (pi : ℚ) (cosf sinf : ℚ → ℚ) (r : ℚ)
    (s : ℤ) :
    (4 ≤ clampSegments s ∧ clampSegments s ≤ 16)
    ∧ mesh_create_sphere pi cosf sinf r 100 = mesh_create_sphere pi cosf sinf r 16
    ∧ (mesh_create_sphere pi cosf sinf r s).vertex_count
        = (sphereRings s - 1) * sphereSlices s + 2
    ∧ (mesh_create_sphere pi cosf sinf r s).face_count
        = (sphereRings s - 2) * sphereSlices s * 2 + sphereSlices s * 2 := by
  have hclamp : 4 ≤ clampSegments s ∧ clampSegments s ≤ 16 := by
    unfold clampSegments
    dsimp only
    split_ifs <;> omega
  have hrings : 4 ≤ sphereRings s := by
    unfold sphereRings
    omega
  refine ⟨hclamp, ?_, ?_, ?_⟩
  · unfold mesh_create_sphere sphereRings sphereSlices
    rw [show clampSegments 100 = clampSegments 16 from by decide]
  · simp only [mesh_create_sphere, mesh_calculate_normals]
    simp only [List.length_cons, List.length_append, List.length_flatMap,
      Function.comp_def, List.length_map, List.length_singleton, List.map_const',
      List.sum_replicate, List.length_range, smul_eq_mul, List.length_nil]
  · simp only [mesh_create_sphere, mesh_calculate_normals]
    simp only [List.length_append, List.length_flatMap, Function.comp_def,
      List.length_map, List.length_cons, List.length_singleton, List.length_nil,
      List.map_const', List.sum_replicate, List.length_range, smul_eq_mul]
    ring

-- ===========================================================================
-- The OBJ loader (obj_loader.c), for claims C7 and C8
-- ===========================================================================

def MAX_VERTICES : ℕ := 128

def MAX_FACES : ℕ := 256

/-- C's `isspace` on the default locale. -/
def isSpaceC (c : Char) : Bool :=
  c == ' ' || c == '\t' || c == '\n' || c == '\x0B' || c == '\x0C' || c == '\r'

/-- skip_ws: advance over whitespace, stopping at a newline. -/
def skip_ws (p : List Char) : List Char :=
  p.dropWhile fun c => isSpaceC c && !(c == '\n')

/-- Scan a run of decimal digits, returning the accumulated value, the
number of digits read, and the rest of the input. -/
def parseDigits : List Char → ℕ → ℕ → ℕ × ℕ × List Char
  | [], acc, n => (acc, n, [])
  | c :: r, acc, n =>
    if c.isDigit then parseDigits r (acc * 10 + (c.toNat - 48)) (n + 1)
    else (acc, n, c :: r)

/-- strtol in base 10: skip whitespace (including newlines), optional
sign, digits; on no conversion the cursor is returned unmoved. -/
def strtolC (p : List Char) : ℤ × List Char :=
  let q := p.dropWhile isSpaceC
  let sq : ℤ × List Char :=
    match q with
    | '-' :: r => (-1, r)
    | '+' :: r => (1, r)
    | _ => (1, q)
  let t := parseDigits sq.2 0 0
  if t.2.1 = 0 then (0, p) else (sq.1 * (t.1 : ℤ), t.2.2)

/-- strtof, modelled for decimal forms: whitespace skip, optional sign,
digits, optional fraction, optional exponent (consumed only when it has
digits); hexadecimal/infinity/nan forms of strtof are not modelled.  On
no conversion the cursor is returned unmoved. -/
def strtofC (p : List Char) : ℚ × List Char :=
  let q := p.dropWhile isSpaceC
  let sq : ℤ × List Char :=
    match q with
    | '-' :: r => (-1, r)
    | '+' :: r => (1, r)
    | _ => (1, q)
  let ti := parseDigits sq.2 0 0
  let hasDot : Bool := ti.2.2.head? = some '.'
  let tf := if hasDot then parseDigits ti.2.2.tail 0 0 else (0, 0, ti.2.2)
  if ti.2.1 + tf.2.1 = 0 then (0, p)
  else
    let mant : ℚ := (sq.1 : ℚ) * ((ti.1 : ℚ) + (tf.1 : ℚ) / (10 : ℚ) ^ tf.2.1)
    match tf.2.2 with
    | c :: r3 =>
      if c == 'e' || c == 'E' then
        let sq2 : ℤ × List Char :=
          match r3 with
          | '-' :: r4 => (-1, r4)
          | '+' :: r4 => (1, r4)
          | _ => (1, r3)
        let te := parseDigits sq2.2 0 0
        if te.2.1 = 0 then (mant, tf.2.2)
        else (mant * (10 : ℚ) ^ (sq2.1 * (te.1 : ℤ)), te.2.2)
      else (mant, tf.2.2)
    | [] => (mant, [])

/-- parse_float: skip non-newline whitespace, then strtof. -/
def parse_float (pp : List Char) : ℚ × List Char := strtofC (skip_ws pp)

/-- parse_int: skip non-newline whitespace, then strtol. -/
def parse_int (pp : List Char) : ℤ × List Char := strtolC (skip_ws pp)

/-- parse_face_index: an integer, optionally followed by `/texture`,
`//normal` or `/texture/normal` suffixes that are skipped. -/
def parse_face_index (pp : List Char) : ℤ × List Char :=
  let t := parse_int pp
  match t.2 with
  | '/' :: p1 =>
    let p2 := if p1.head? = some '/' then p1 else (strtolC p1).2
    (match p2 with
     | '/' :: p3 => (t.1, (strtolC p3).2)
     | _ => (t.1, p2))
  | _ => (t.1, t.2)

/-- Skip to the character after the next newline (the
`while (*p && *p != '\n') p++; if (*p == '\n') p++;` idiom). -/
def nextLine (q : List Char) : List Char :=
  (q.dropWhile fun c => !(c == '\n')).tail

/-- The face-vertex counting loop inside count_elements.  The fuel
argument only bounds the iteration count: every iteration of the C loop
that makes progress consumes at least one character, so `length + 1`
fuel is exhausted only on inputs where the C loop itself never
terminates (a face record whose index parse consumes no characters,
e.g. a stray letter); there the model stops counting. -/
def countFaceVerts : ℕ → List Char → ℕ → ℕ
  | 0, _, n => n
  | _, [], n => n
  | fuel + 1, c :: r, n =>
    if c = '\n' then n
    else
      let q := skip_ws (c :: r)
      match q with
      | [] => n
      | c' :: _ =>
        if c' = '\n' then n
        else
          let t := parse_face_index q
          countFaceVerts fuel t.2 (n + 1)

/-- The line loop of count_elements (fuel as above; the outer loop
always consumes at least one character per line). -/
def count_elements_go : ℕ → List Char → ℕ → ℕ → ℕ × ℕ
  | 0, _, verts, faces => (verts, faces)
  | _, [], verts, faces => (verts, faces)
  | fuel + 1, p, verts, faces =>
    let q := skip_ws p
    let verts' := if q.head? = some 'v' ∧ q.tail.head? = some ' '
      then verts + 1 else verts
    let faces' := if q.head? = some 'f' ∧ q.tail.head? = some ' ' then
        let fv := countFaceVerts (q.length + 1) (q.drop 2) 0
        if 3 ≤ fv then faces + (fv - 2) else faces
      else faces
    count_elements_go fuel (nextLine q) verts' faces'

/-- count_elements: one pass counting `v ` records and the
post-fan-triangulation triangle count of `f ` records. -/
def count_elements (p : List Char) : ℕ × ℕ :=
  count_elements_go (p.length + 1) p 0 0

/-- The face-vertex gathering loop of the parse pass: collects up to 16
0-based indices, resolving negative (relative) indices against the
current vertex count and dropping out-of-range ones (fuel as in
`countFaceVerts`). -/
def faceIndexLoop (vi : ℕ) : ℕ → List Char → ℕ → List ℕ → List ℕ × List Char
  | 0, p, _, acc => (acc, p)
  | _, [], _, acc => (acc, [])
  | fuel + 1, c :: r, nv, acc =>
    if c = '\n' then (acc, c :: r)
    else if 16 ≤ nv then (acc, c :: r)
    else
      let q := skip_ws (c :: r)
      match q with
      | [] => (acc, [])
      | c' :: _ =>
        if c' = '\n' then (acc, q)
        else
          let t := parse_face_index q
          let idx := if t.1 < 0 then (vi : ℤ) + t.1 else t.1 - 1
          if 0 ≤ idx ∧ idx < (vi : ℤ) then
            faceIndexLoop vi fuel t.2 (nv + 1) (acc ++ [idx.toNat])
          else
            faceIndexLoop vi fuel t.2 nv acc

/-- The fan triangulation `for (i = 1; i < nv - 1 && fi < face_count; i++)`:
`min (nv − 2) (cap − fi)` triangles sharing the record's first index. -/
def fanTriangulate (inds : List ℕ) (fi cap : ℕ) (color : Color) : List Face :=
  (List.range (min (inds.length - 2) (cap - fi))).map fun i =>
    ⟨inds.getD 0 0, inds.getD (i + 1) 0, inds.getD (i + 2) 0, color⟩

/-- The parse loop of obj_load_from_string (fuel as in
`count_elements_go`). -/
def objParse (default_color : Color) (face_cap : ℕ) :
    ℕ → List Char → ℕ → List Vec3 → ℕ → List Face →
      ℕ × List Vec3 × ℕ × List Face
  | 0, _, vi, verts, fi, faces => (vi, verts, fi, faces)
  | _, [], vi, verts, fi, faces => (vi, verts, fi, faces)
  | fuel + 1, p, vi, verts, fi, faces =>
    let q := skip_ws p
    if q.head? = some 'v' ∧ q.tail.head? = some ' ' then
      let tx := parse_float (q.drop 2)
      let ty := parse_float tx.2
      let tz := parse_float ty.2
      objParse default_color face_cap fuel (nextLine tz.2) (vi + 1)
        (verts ++ [⟨tx.1, ty.1, tz.1⟩]) fi faces
    else if q.head? = some 'f' ∧ q.tail.head? = some ' ' then
      let t := faceIndexLoop vi (q.length + 1) (q.drop 2) 0 []
      let newFaces := fanTriangulate t.1 fi face_cap default_color
      objParse default_color face_cap fuel (nextLine t.2) vi verts
        (fi + newFaces.length) (faces ++ newFaces)
    else
      objParse default_color face_cap fuel (nextLine q) vi verts fi faces

def objSuccessMsg (v f : ℕ) : String :=
  "OK: " ++ toString v ++ " verts, " ++ toString f ++ " faces"

def objTooLargeMsg (v f : ℕ) : String :=
  "Model too large: " ++ toString v ++ " verts, " ++ toString f
    ++ " faces (max 128/256)"

/-- obj_load_from_string.  The NULL input pointer is the `none` case;
the returned string models the global last-error buffer, written on
every return path (allocation always succeeds in the model). -/
def obj_load_from_string (obj_data : Option (List Char))
    (default_color : Color) : Option Mesh × String :=
  match obj_data with
  | none => (none, "Null data pointer")
  | some data =>
    let cnt := count_elements data
    if cnt.1 = 0 then (none, "No vertices found")
    else if MAX_VERTICES < cnt.1 ∨ MAX_FACES < cnt.2 then
      (none, objTooLargeMsg cnt.1 cnt.2)
    else
      let t := objParse default_color cnt.2 (data.length + 1) data 0 [] 0 []
      let mesh := mesh_calculate_normals
        { vertices := t.2.1, normals := [], faces := t.2.2.2,
          vertex_count := t.1, normal_count := 0, face_count := t.2.2.1,
          position := ⟨0, 0, 0⟩, rotation := ⟨0, 0, 0⟩, scale := ⟨1, 1, 1⟩ }
      (some mesh, objSuccessMsg t.1 t.2.2.1)

-- ===========================================================================
-- Claim C7
-- ===========================================================================

/-- The four-line OBJ text of claim C7. -/
def objInputC7 : List Char := "v 0 0 0\nv 1 0 0\nv 0 1 0\nf 1 2 3\n".toList

/-- C7: obj_load_from_string applied to the exact input text
"v 0 0 0\nv 1 0 0\nv 0 1 0\nf 1 2 3\n" returns a non-null mesh whose
vertex_count is exactly 3 and whose face_count is exactly 1, with that
single face's vertex indices being (0, 1, 2). -/
theorem obj_load_tri_example :
    ((obj_load_from_string (some objInputC7) ⟨255, 255, 255⟩).1.map
      fun m => (m.vertex_count, m.face_count,
        m.faces.map fun f => (f.v0, f.v1, f.v2))) = some (3, 1, [(0, 1, 2)]) := by
  with_unfolding_all rfl

-- ===========================================================================
-- Claim C8
-- ===========================================================================

theorem objSuccessMsg_head (v f : ℕ) :
    (objSuccessMsg v f).data.head? = some 'O' := by
  obtain ⟨sd⟩ := toString v
  obtain ⟨td⟩ := toString f
  rfl

theorem objTooLargeMsg_head (v f : ℕ) :
    (objTooLargeMsg v f).data.head? = some 'M' := by
  obtain ⟨sd⟩ := toString v
  obtain ⟨td⟩ := toString f
  rfl

theorem not_success_of_head (s : String) (h : s.data.head? ≠ some 'O')
    (v f : ℕ) : s ≠ objSuccessMsg v f :=
  fun he => h (he ▸ objSuccessMsg_head v f)

/-- The capacity-overflow input used as witness for C8: 129 `v ` records. -/
def bigInputC8 : List Char := (String.join (List.replicate 129 "v \n")).toList

/-- A one-vertex OBJ text that parses successfully. -/
def tinyInputC8 : List Char := "v 0 0 0\n".toList

/-- C8: whenever the counted vertex total exceeds MAX_VERTICES or the
post-triangulation face total exceeds MAX_FACES, obj_load_from_string
returns a null mesh and the last-error string is not the success message
for any counts; and whenever a mesh is returned, the last-error string is
the success message for some counts. -/
theorem obj_load_capacity_errors :
    (∀ (data : List Char) (c : Color),
      MAX_VERTICES < (count_elements data).1 ∨
        MAX_FACES < (count_elements data).2 →
      (obj_load_from_string (some data) c).1 = none ∧
        ∀ v f, (obj_load_from_string (some data) c).2 ≠ objSuccessMsg v f) ∧
    (∀ (data : List Char) (c : Color) (m : Mesh),
      (obj_load_from_string (some data) c).1 = some m →
        ∃ v f, (obj_load_from_string (some data) c).2 = objSuccessMsg v f) := by
  constructor
  · intro data c h
    simp only [obj_load_from_string]
    split_ifs with h0
    · exact ⟨rfl, not_success_of_head _ (by decide)⟩
    · exact ⟨rfl, not_success_of_head _ (by rw [objTooLargeMsg_head]; decide)⟩
  · intro data c m hm
    simp only [obj_load_from_string] at hm ⊢
    split_ifs at hm ⊢
    exact ⟨_, _, rfl⟩

theorem obj_load_capacity_errors_witness :
    ((obj_load_from_string (some bigInputC8) ⟨255, 255, 255⟩).1 = none ∧
      (obj_load_from_string (some bigInputC8) ⟨255, 255, 255⟩).2 ≠
        objSuccessMsg 129 0) ∧
    ∃ v f, (obj_load_from_string (some tinyInputC8) ⟨255, 255, 255⟩).2 =
      objSuccessMsg v f := by
  constructor
  · have h := obj_load_capacity_errors.1 bigInputC8 ⟨255, 255, 255⟩
      (Or.inl (by with_unfolding_all decide))
    exact ⟨h.1, h.2 129 0⟩
  · have hs : ((obj_load_from_string (some tinyInputC8) ⟨255, 255, 255⟩).1).isSome := by
      with_unfolding_all rfl
    exact obj_load_capacity_errors.2 tinyInputC8 ⟨255, 255, 255⟩ _
      (Option.some_get hs).symm

-- ===========================================================================
-- Claim C9
-- ===========================================================================

/-- C9: calling render3d_draw_mesh or render3d_draw_mesh_wireframe with
a NULL mesh, or with a mesh whose face_count is 0, returns immediately:
the whole render state (depth buffer, cached matrices, camera, light)
and the display output are completely unchanged. -/
theorem draw_mesh_guard_noop (cosf sinf : ℚ → ℚ) (ctx : RState)
    (mesh : Option Mesh)
    (h : mesh = none ∨ ∃ m, mesh = some m ∧ m.face_count = 0) :
    render3d_draw_mesh cosf sinf ctx mesh = ctx
    ∧ render3d_draw_mesh_wireframe cosf sinf ctx mesh = ctx := by
  rcases h with rfl | ⟨m, rfl, hm⟩
  · exact ⟨rfl, rfl⟩
  · constructor
    · simp [render3d_draw_mesh, hm]
    · simp [render3d_draw_mesh_wireframe, hm]

/-- A mesh with zero faces, used by the C9 witness. -/
def meshEmpty : Mesh :=
  ⟨[], [], [], 0, 0, 0, vec3_zero, vec3_zero, ⟨1, 1, 1⟩⟩

/-- C9 (witness): the guard theorem applied to a concrete context with
a NULL mesh and with a concrete zero-face mesh. -/
theorem draw_mesh_guard_noop_witness :
    (render3d_draw_mesh (fun _ => 1) (fun _ => 0) ctxC2 none = ctxC2
      ∧ render3d_draw_mesh_wireframe (fun _ => 1) (fun _ => 0) ctxC2 none = ctxC2)
    ∧ (render3d_draw_mesh (fun _ => 1) (fun _ => 0) ctxC2 (some meshEmpty) = ctxC2
      ∧ render3d_draw_mesh_wireframe (fun _ => 1) (fun _ => 0) ctxC2
          (some meshEmpty) = ctxC2) :=
  ⟨draw_mesh_guard_noop (fun _ => 1) (fun _ => 0) ctxC2 none (Or.inl rfl),
   draw_mesh_guard_noop (fun _ => 1) (fun _ => 0) ctxC2 (some meshEmpty)
     (Or.inr ⟨meshEmpty, rfl, rfl⟩)⟩
